import Mathlib

/-!
Verification of the IMDb-Crawler repository (src/imdb_crawler.py,
src/movie_detail_crawler.py, src/user_review_crawler.py).

The Python code manipulates JSON-decoded values (dict / list / str / int /
bool / None).  We embed those values as the inductive type `Json` below and
give Python-faithful semantics to the operations the crawler uses:
truthiness, `dict.get`, subscripting, the `in` operator, iteration and
floor division.  Operations that raise in Python are modelled in
`Except Unit`; every crawler function that wraps its body in a blanket
`try/except` is embedded as the corresponding total function obtained by
catching the error.
-/

namespace IMDbCrawler

/-- JSON-decoded Python values (`None`, `bool`, `int`, `str`, `list`,
`dict`).  Numbers are modelled as integers; the crawler never computes with
fractional values (the only arithmetic is `// 60` on a vote/seconds count). -/
inductive Json where
  | null : Json
  | bool (b : Bool) : Json
  | num (n : Int) : Json
  | str (s : String) : Json
  | arr (elems : List Json) : Json
  | obj (fields : List (String × Json)) : Json
deriving Repr

mutual

/-- Structural equality test on `Json`. -/
def Json.beq : Json → Json → Bool
  | .null, .null => true
  | .bool a, .bool b => a == b
  | .num a, .num b => a == b
  | .str a, .str b => a == b
  | .arr a, .arr b => Json.beqList a b
  | .obj a, .obj b => Json.beqFields a b
  | _, _ => false

/-- Equality test on lists of `Json`. -/
def Json.beqList : List Json → List Json → Bool
  | [], [] => true
  | x :: xs, y :: ys => Json.beq x y && Json.beqList xs ys
  | _, _ => false

/-- Equality test on association lists of `Json`. -/
def Json.beqFields : List (String × Json) → List (String × Json) → Bool
  | [], [] => true
  | (k, v) :: xs, (l, w) :: ys => k == l && Json.beq v w && Json.beqFields xs ys
  | _, _ => false

end

mutual

theorem Json.beq_iff : ∀ a b : Json, Json.beq a b = true ↔ a = b
  | .null, .null => by simp [Json.beq]
  | .null, .bool _ | .null, .num _ | .null, .str _ | .null, .arr _ | .null, .obj _ => by
    simp [Json.beq]
  | .bool _, .null | .bool _, .num _ | .bool _, .str _ | .bool _, .arr _ | .bool _, .obj _ => by
    simp [Json.beq]
  | .bool a, .bool b => by simp [Json.beq]
  | .num _, .null | .num _, .bool _ | .num _, .str _ | .num _, .arr _ | .num _, .obj _ => by
    simp [Json.beq]
  | .num a, .num b => by simp [Json.beq]
  | .str _, .null | .str _, .bool _ | .str _, .num _ | .str _, .arr _ | .str _, .obj _ => by
    simp [Json.beq]
  | .str a, .str b => by simp [Json.beq]
  | .arr _, .null | .arr _, .bool _ | .arr _, .num _ | .arr _, .str _ | .arr _, .obj _ => by
    simp [Json.beq]
  | .arr a, .arr b => by
    simp only [Json.beq, Json.beqList_iff a b, Json.arr.injEq]
  | .obj _, .null | .obj _, .bool _ | .obj _, .num _ | .obj _, .str _ | .obj _, .arr _ => by
    simp [Json.beq]
  | .obj a, .obj b => by
    simp only [Json.beq, Json.beqFields_iff a b, Json.obj.injEq]

theorem Json.beqList_iff : ∀ a b : List Json, Json.beqList a b = true ↔ a = b
  | [], [] => by simp [Json.beqList]
  | [], _ :: _ => by simp [Json.beqList]
  | _ :: _, [] => by simp [Json.beqList]
  | x :: xs, y :: ys => by
    simp only [Json.beqList, Bool.and_eq_true, Json.beq_iff x y,
      Json.beqList_iff xs ys, List.cons.injEq]

theorem Json.beqFields_iff :
    ∀ a b : List (String × Json), Json.beqFields a b = true ↔ a = b
  | [], [] => by simp [Json.beqFields]
  | [], _ :: _ => by simp [Json.beqFields]
  | _ :: _, [] => by simp [Json.beqFields]
  | (k, v) :: xs, (l, w) :: ys => by
    simp only [Json.beqFields, Bool.and_eq_true, Json.beq_iff v w,
      Json.beqFields_iff xs ys, List.cons.injEq, Prod.mk.injEq, beq_iff_eq]

end

instance : DecidableEq Json := fun a b =>
  decidable_of_iff (Json.beq a b = true) (Json.beq_iff a b)

/-- Python truthiness (`bool(v)`) of a JSON-decoded value: `None`, `False`,
`0`, `""`, `[]` and `{}` are falsy, everything else truthy. -/
def Json.truthy : Json → Bool
  | .null => false
  | .bool b => b
  | .num n => n != 0
  | .str s => s != ""
  | .arr elems => !elems.isEmpty
  | .obj fields => !fields.isEmpty

/-- Is the value a Python `dict`? (`isinstance(v, dict)`). -/
def Json.isObj : Json → Bool
  | .obj _ => true
  | _ => false

/-- Lookup of a key in a `dict`'s field list (Python dicts have unique keys;
we read the first binding). -/
def lookupField (fields : List (String × Json)) (k : String) : Option Json :=
  (fields.find? (fun p => p.1 == k)).map Prod.snd

/-- Python `v.get(k, d)`.  Only dicts have a `.get` method: on any other
value the attribute access raises (`AttributeError`), modelled as `.error`. -/
def pyGet (v : Json) (k : String) (d : Json) : Except Unit Json :=
  match v with
  | .obj fields => .ok ((lookupField fields k).getD d)
  | _ => .error ()

/-- Is `needle` a contiguous substring of `hay` (Python `needle in hay` on
strings)? -/
def strContains (needle hay : String) : Bool :=
  go needle.toList hay.toList
where
  /-- Check every suffix of the haystack for the needle as a prefix. -/
  go (ns : List Char) : List Char → Bool
    | [] => ns.isEmpty
    | c :: cs => ns.isPrefixOf (c :: cs) || go ns cs

/-- Python `k in v` for a string key: key membership on dicts, element
equality on lists, substring test on strings; on `None`/`bool`/`int` the
operator raises `TypeError`. -/
def pyContains (v : Json) (k : String) : Except Unit Bool :=
  match v with
  | .obj fields => .ok (fields.any (fun p => p.1 == k))
  | .arr elems => .ok (elems.any (fun x => x == Json.str k))
  | .str s => .ok (strContains k s)
  | _ => .error ()

/-- Python `v[k]` for a string key: dict lookup (`KeyError` when absent);
on every non-dict value a string subscript raises `TypeError`. -/
def pySubscript (v : Json) (k : String) : Except Unit Json :=
  match v with
  | .obj fields =>
    match lookupField fields k with
    | some w => .ok w
    | none => .error ()
  | _ => .error ()

/-- Python `for x in v`: lists yield their elements, dicts their keys,
strings their characters; other values raise `TypeError`. -/
def pyIter : Json → Except Unit (List Json)
  | .arr elems => .ok elems
  | .obj fields => .ok (fields.map (fun p => Json.str p.1))
  | .str s => .ok (s.toList.map (fun c => Json.str (String.singleton c)))
  | _ => .error ()

/-- Python `v // 60`: floor division, defined on ints and bools (bools are
ints in Python); any other operand raises `TypeError`. -/
def pyFloorDiv60 (v : Json) : Except Unit Int :=
  match v with
  | .num n => .ok (Int.fdiv n 60)
  | .bool b => .ok (Int.fdiv (if b then 1 else 0) 60)
  | _ => .error ()

/-! ## `IMDbCrawler._extract_movie_data` (src/imdb_crawler.py lines 192-253) -/

/-- The normalized catalog record built by `_extract_movie_data`.  Fields
hold the JSON values the Python code stores in the `movie_data` dict;
`runtime_minutes` is the Python int produced by `// 60`. -/
structure MovieData where
  id : Json
  title : Json
  year : Json
  rating : Json
  votes : Json
  runtime_minutes : Int
  genres : List Json
  plot : Json
  primary_image : Json
deriving Repr, DecidableEq

/-- Python `v.get(k, d) if v else d`, the guarded-lookup idiom used for
every optional sub-structure in `_extract_movie_data`. -/
def condField (v : Json) (k : String) (d : Json) : Except Unit Json :=
  if v.truthy then pyGet v k d else .ok d

/-- `runtime.get('seconds', 0) // 60 if runtime and runtime.get('seconds')
else 0` (line 224): both the guard and the division re-read `seconds`. -/
def runtimeMinutesField (runtime : Json) : Except Unit Int :=
  if runtime.truthy then
    match pyGet runtime "seconds" .null with
    | .error e => .error e
    | .ok s =>
      if s.truthy then
        match pyGet runtime "seconds" (.num 0) with
        | .error e => .error e
        | .ok s2 => pyFloorDiv60 s2
      else .ok 0
  else .ok 0

/-- The genre list comprehension (lines 232-236): keep an entry only when
it is a truthy dict containing the key `'genre'`, and emit
`genre.get('genre', {}).get('text', '')` for it. -/
def extractGenres : List Json → Except Unit (List Json)
  | [] => .ok []
  | g :: rest =>
    match (if g.truthy && g.isObj then pyContains g "genre" else .ok false) with
    | .error e => .error e
    | .ok keep =>
      if keep then
        match pyGet g "genre" (.obj []) with
        | .error e => .error e
        | .ok gv =>
          match pyGet gv "text" (.str "") with
          | .error e => .error e
          | .ok t =>
            match extractGenres rest with
            | .error e => .error e
            | .ok ts => .ok (t :: ts)
      else extractGenres rest

/-- `if genres_data and 'genres' in genres_data:` followed by the
comprehension over `genres_data['genres']` (lines 231-236); otherwise the
`genres` field keeps its initial `[]`. -/
def genresField (genres_data : Json) : Except Unit (List Json) :=
  if genres_data.truthy then
    match pyContains genres_data "genres" with
    | .error e => .error e
    | .ok has =>
      if has then
        match pySubscript genres_data "genres" with
        | .error e => .error e
        | .ok lst =>
          match pyIter lst with
          | .error e => .error e
          | .ok items => extractGenres items
      else .ok []
  else .ok []

/-- The plot update (lines 239-242): when `plot_data` is truthy read
`plotText`, and when that is truthy read `plainText`; otherwise the field
keeps its initial `''`. -/
def plotField (plot_data : Json) : Except Unit Json :=
  if plot_data.truthy then
    match pyGet plot_data "plotText" (.obj []) with
    | .error e => .error e
    | .ok pt =>
      if pt.truthy then pyGet pt "plainText" (.str "")
      else .ok (.str "")
  else .ok (.str "")

/-- Body of `_extract_movie_data` (lines 193-249), before the blanket
`except`.  Returns the record (or `none`) together with the number of
`self.error_count` increments performed (each `return None` is preceded by
exactly one increment). -/
def extractMovieDataE (movie_edge : Json) : Except Unit (Option MovieData × Nat) :=
  if !movie_edge.truthy then .ok (none, 1) else
  match pyContains movie_edge "node" with
  | .error e => .error e
  | .ok hasNode =>
  if !hasNode then .ok (none, 1) else
  match pySubscript movie_edge "node" with
  | .error e => .error e
  | .ok node =>
  if !node.truthy then .ok (none, 1) else
  match pyGet node "title" (.obj []) with
  | .error e => .error e
  | .ok title =>
  if !title.truthy then .ok (none, 1) else
  match pyGet title "titleText" (.obj []) with
  | .error e => .error e
  | .ok title_text =>
  match pyGet title "releaseYear" (.obj []) with
  | .error e => .error e
  | .ok release_year =>
  match pyGet title "ratingsSummary" (.obj []) with
  | .error e => .error e
  | .ok ratings_summary =>
  match pyGet title "runtime" (.obj []) with
  | .error e => .error e
  | .ok runtime =>
  match pyGet title "titleGenres" (.obj []) with
  | .error e => .error e
  | .ok genres_data =>
  match pyGet title "plot" (.obj []) with
  | .error e => .error e
  | .ok plot_data =>
  match pyGet title "primaryImage" .null with
  | .error e => .error e
  | .ok primary_image =>
  match pyGet title "id" (.str "") with
  | .error e => .error e
  | .ok idv =>
  match condField title_text "text" (.str "") with
  | .error e => .error e
  | .ok titlev =>
  match condField release_year "year" (.str "") with
  | .error e => .error e
  | .ok yearv =>
  match condField ratings_summary "aggregateRating" .null with
  | .error e => .error e
  | .ok ratingv =>
  match condField ratings_summary "voteCount" (.num 0) with
  | .error e => .error e
  | .ok votesv =>
  match runtimeMinutesField runtime with
  | .error e => .error e
  | .ok runtimev =>
  match condField primary_image "url" (.str "") with
  | .error e => .error e
  | .ok primaryv =>
  match genresField genres_data with
  | .error e => .error e
  | .ok genresv =>
  match plotField plot_data with
  | .error e => .error e
  | .ok plotv =>
  if !idv.truthy || !titlev.truthy then .ok (none, 1) else
  .ok (some {
    id := idv, title := titlev, year := yearv, rating := ratingv,
    votes := votesv, runtime_minutes := runtimev, genres := genresv,
    plot := plotv, primary_image := primaryv }, 0)

/-- `_extract_movie_data` as Python executes it: the blanket
`except Exception` (lines 251-253) turns any raised exception into one
more `error_count` increment and a `None` result, so the function as a
whole never raises. -/
def extractMovieData (movie_edge : Json) : Option MovieData × Nat :=
  match extractMovieDataE movie_edge with
  | .ok r => r
  | .error _ => (none, 1)

/-- A well-formed sample edge used to exercise the extraction rules. -/
def sampleEdge : Json :=
  .obj [("node", .obj [("title", .obj [
    ("id", .str "tt0000001"),
    ("titleText", .obj [("text", .str "Movie")]),
    ("ratingsSummary", .obj [("aggregateRating", .num 8), ("voteCount", .num 500)]),
    ("runtime", .obj [("seconds", .num 125)])])])]

/-- Claim C4: the catalog extraction function never raises (it is embedded
as the total function `extractMovieData`); when it returns `none` the error
counter was incremented exactly once, and when it returns a record the
counter was not incremented and the record's `id` and `title` are truthy
(non-empty) — never a partial record. -/
theorem extract_error_discipline (edge : Json) :
    ((extractMovieData edge).1 = none → (extractMovieData edge).2 = 1) ∧
    (∀ m, (extractMovieData edge).1 = some m →
      (extractMovieData edge).2 = 0 ∧ m.id.truthy = true ∧ m.title.truthy = true) := by
  have haux : ∀ r, extractMovieDataE edge = .ok r →
      (r.1 = none → r.2 = 1) ∧
      (∀ m, r.1 = some m →
        r.2 = 0 ∧ m.id.truthy = true ∧ m.title.truthy = true) := by
    intro r h
    unfold extractMovieDataE at h
    repeat' split at h
    all_goals (first
      | (injection h with h2; subst h2; simp_all)
      | (injection h))
  unfold extractMovieData
  cases heq : extractMovieDataE edge with
  | error e => simp
  | ok r => exact haux r heq

/-- Witness for `extract_error_discipline` at the concrete `sampleEdge`. -/
theorem extract_error_discipline_witness :
    (extractMovieData sampleEdge).2 = 0 ∧
    ({ id := .str "tt0000001", title := .str "Movie", year := .str "",
       rating := .num 8, votes := .num 500, runtime_minutes := 2,
       genres := [], plot := .str "", primary_image := .str "" } :
        MovieData).id.truthy = true :=
  ⟨((extract_error_discipline sampleEdge).2
      { id := .str "tt0000001", title := .str "Movie", year := .str "",
        rating := .num 8, votes := .num 500, runtime_minutes := 2,
        genres := [], plot := .str "", primary_image := .str "" }
      (by decide)).1,
    ((extract_error_discipline sampleEdge).2
      { id := .str "tt0000001", title := .str "Movie", year := .str "",
        rating := .num 8, votes := .num 500, runtime_minutes := 2,
        genres := [], plot := .str "", primary_image := .str "" }
      (by decide)).2.1⟩

/-- Counterexample to claim C5 as stated: the runtime rule (line 224 of
src/imdb_crawler.py) applied to a reported `seconds` of `-30` yields
`-30 // 60 = -1`, a negative number of minutes, so the result is not
"never negative" for every input. -/
theorem runtime_negative_counterexample :
    runtimeMinutesField (.obj [("seconds", .num (-30))]) = .ok (-1) ∧
    ((-1 : Int) < 0) := by
  constructor
  · rfl
  · decide

/-- Claim C5 (amended): runtime-minutes is `seconds // 60` with Python
floor semantics, absent or zero seconds give `0` (125 gives 2), the result
never rounds up, and it is non-negative whenever the reported seconds
value is non-negative (a negative seconds value yields a negative
result). -/
theorem runtime_floor_semantics :
    runtimeMinutesField (.obj [("seconds", .num 125)]) = .ok 2 ∧
    runtimeMinutesField (.obj [("seconds", .num 0)]) = .ok 0 ∧
    runtimeMinutesField (.obj []) = .ok 0 ∧
    (∀ n : Int, runtimeMinutesField (.obj [("seconds", .num n)]) =
      .ok (Int.fdiv n 60)) ∧
    (∀ n : Int, 60 * Int.fdiv n 60 ≤ n) ∧
    (∀ n : Int, 0 ≤ n → 0 ≤ Int.fdiv n 60) := by
  refine ⟨by rfl, by rfl, by rfl, ?_, ?_, ?_⟩
  · intro n
    by_cases h : n = 0
    · subst h; rfl
    · simp [runtimeMinutesField, pyGet, lookupField, Json.truthy,
        pyFloorDiv60, h]
  · intro n
    rw [Int.fdiv_eq_ediv _ (by decide)]
    omega
  · intro n hn
    exact Int.fdiv_nonneg hn (by decide)

/-- Witness for `runtime_floor_semantics`: the universally quantified
conjuncts instantiated at `seconds = 125`. -/
theorem runtime_floor_semantics_witness :
    runtimeMinutesField (.obj [("seconds", .num 125)]) = .ok (Int.fdiv 125 60) ∧
    60 * Int.fdiv 125 60 ≤ 125 ∧ (0 : Int) ≤ Int.fdiv 125 60 :=
  ⟨runtime_floor_semantics.2.2.2.1 125,
   runtime_floor_semantics.2.2.2.2.1 125,
   runtime_floor_semantics.2.2.2.2.2 125 (by decide)⟩

/-- A raw edge whose genres use the nested `genre.text` shape. -/
def edgeNestedGenres : Json :=
  .obj [("node", .obj [("title", .obj [
    ("id", .str "tt0000002"),
    ("titleText", .obj [("text", .str "Movie")]),
    ("titleGenres", .obj [("genres", .arr [
      .obj [("genre", .obj [("text", .str "Drama")])]])])])])]

/-- The same logical edge with the genres given as bare text objects. -/
def edgeBareGenres : Json :=
  .obj [("node", .obj [("title", .obj [
    ("id", .str "tt0000002"),
    ("titleText", .obj [("text", .str "Movie")]),
    ("titleGenres", .obj [("genres", .arr [
      .obj [("text", .str "Drama")]])])])])]

/-- Counterexample to claim C2 as stated: two logically-equivalent raw
edges, one with the nested `genre.text` shape and one with bare text
objects, do not yield identical genre lists — the comprehension's
`'genre' in genre` filter (line 235 of src/imdb_crawler.py) drops every
bare text object, so the second edge yields an empty genre list. -/
theorem genre_shape_counterexample :
    ((extractMovieData edgeNestedGenres).1.map MovieData.genres) =
      some [.str "Drama"] ∧
    ((extractMovieData edgeBareGenres).1.map MovieData.genres) = some [] ∧
    ¬ ((extractMovieData edgeNestedGenres).1.map MovieData.genres =
       (extractMovieData edgeBareGenres).1.map MovieData.genres) := by
  refine ⟨by decide, by decide, by decide⟩

/-- Claim C2 (amended): genre extraction accepts only the nested
`genre.text` shape — a `genres` wrapper of `genre.text` objects yields the
wrapped texts in order, while a wrapper of bare text objects yields the
empty genre list (its entries are dropped by the `'genre' in genre`
filter). -/
theorem genre_extraction_shapes :
    (∀ ts : List String,
      genresField (.obj [("genres",
        .arr (ts.map (fun t => .obj [("genre", .obj [("text", .str t)])])))]) =
        .ok (ts.map Json.str)) ∧
    (∀ ts : List String,
      genresField (.obj [("genres",
        .arr (ts.map (fun t => .obj [("text", .str t)])))]) = .ok []) := by
  have hnested : ∀ ts : List String,
      extractGenres (ts.map (fun t => .obj [("genre", .obj [("text", .str t)])])) =
        .ok (ts.map Json.str) := by
    intro ts
    induction ts with
    | nil => rfl
    | cons t rest ih =>
      simp [extractGenres, Json.truthy, Json.isObj, pyContains, pyGet,
        lookupField, ih]
  have hbare : ∀ ts : List String,
      extractGenres (ts.map (fun t => .obj [("text", .str t)])) = .ok [] := by
    intro ts
    induction ts with
    | nil => rfl
    | cons t rest ih =>
      simp [extractGenres, Json.truthy, Json.isObj, pyContains, pyGet,
        lookupField, ih]
  constructor
  · intro ts
    simp [genresField, Json.truthy, pyContains, pySubscript, lookupField,
      pyIter, hnested ts]
  · intro ts
    simp [genresField, Json.truthy, pyContains, pySubscript, lookupField,
      pyIter, hbare ts]

/-- Witness for `genre_extraction_shapes` at the singleton list
`["Drama"]`. -/
theorem genre_extraction_shapes_witness :
    genresField (.obj [("genres",
      .arr [.obj [("genre", .obj [("text", .str "Drama")])]])]) =
      .ok [.str "Drama"] ∧
    genresField (.obj [("genres", .arr [.obj [("text", .str "Drama")]])]) =
      .ok [] := by
  have h1 := genre_extraction_shapes.1 ["Drama"]
  have h2 := genre_extraction_shapes.2 ["Drama"]
  simpa using And.intro h1 h2

/-! ## `IMDbCrawler.get_vietnamese_movies` (src/imdb_crawler.py lines 71-123)

The catalog crawl loop.  The fetcher `_fetch_movies_page(after_token)` is
modelled as an external script `Nat → Json → Json` mapping the request
number and the cursor it was called with to the returned envelope
(`Json.null` models a `None` = failed fetch); the `while has_next` loop is
run on explicit fuel.  The blanket `except` of the loop body (lines
114-117) keeps whatever had already been appended to `self.all_movies`,
so the body is embedded in `Except CrawlState CrawlState` with the
in-progress state carried on the error side. -/

/-- The loop state of `get_vietnamese_movies`: cursor, raw `has_next`
value, the `self.all_movies` accumulator, both error counters, and the
number of fetch calls performed so far. -/
structure CrawlState where
  afterToken : Json
  hasNext : Json
  allMovies : List MovieData
  errorCount : Nat
  pageErrors : Nat
  calls : Nat
deriving Repr, DecidableEq

/-- `after_token = None`, `has_next = True`, empty accumulator. -/
def initCrawlState : CrawlState :=
  { afterToken := .null, hasNext := .bool true, allMovies := [],
    errorCount := 0, pageErrors := 0, calls := 0 }

/-- The per-page extraction loop (lines 93-99): apply
`_extract_movie_data` to each edge, append the valid records and add up
the error-counter increments. -/
def processEdges : List Json → CrawlState → CrawlState
  | [], s => s
  | e :: rest, s =>
    match extractMovieData e with
    | (some m, inc) =>
      processEdges rest { s with allMovies := s.allMovies ++ [m],
                                 errorCount := s.errorCount + inc }
    | (none, inc) =>
      processEdges rest { s with errorCount := s.errorCount + inc }

/-- The valid records an edge list contributes. -/
def validMovies (edges : List Json) : List MovieData :=
  edges.filterMap (fun e => (extractMovieData e).1)

/-- The error-counter increments an edge list causes. -/
def edgeErrors (edges : List Json) : Nat :=
  (edges.map (fun e => (extractMovieData e).2)).sum

theorem processEdges_spec (edges : List Json) (s : CrawlState) :
    processEdges edges s =
      { s with allMovies := s.allMovies ++ validMovies edges,
               errorCount := s.errorCount + edgeErrors edges } := by
  induction edges generalizing s with
  | nil => simp [processEdges, validMovies, edgeErrors]
  | cons e rest ih =>
    cases hm : extractMovieData e with
    | mk r inc =>
      cases r with
      | some m =>
        simp [processEdges, hm, ih, validMovies, edgeErrors, Nat.add_assoc,
          Nat.add_comm inc]
      | none =>
        simp [processEdges, hm, ih, validMovies, edgeErrors, Nat.add_assoc,
          Nat.add_comm inc]

/-- One successful iteration of the loop body, lines 88-109: unwrap
`data.advancedTitleSearch`, read `edges` and `pageInfo` (each with an
empty-dict/empty-list fallback), process the edges, then update
`has_next` from `pageInfo.hasNextPage` (default `False`) and the cursor
from `pageInfo.endCursor` (default `None`).  A raised exception is caught
by lines 114-117 with the mutations performed so far kept, which the
error side carries. -/
def crawlBody (movies_page : Json) (s : CrawlState) : Except CrawlState CrawlState :=
  match pyGet movies_page "data" (.obj []) with
  | .error _ => .error s
  | .ok d =>
  match pyGet d "advancedTitleSearch" (.obj []) with
  | .error _ => .error s
  | .ok search_results =>
  match pyGet search_results "edges" (.arr []) with
  | .error _ => .error s
  | .ok edgesJson =>
  match pyGet search_results "pageInfo" (.obj []) with
  | .error _ => .error s
  | .ok page_info =>
  match pyIter edgesJson with
  | .error _ => .error s
  | .ok edges =>
  let s1 := processEdges edges s
  match pyGet page_info "hasNextPage" (.bool false) with
  | .error _ => .error s1
  | .ok hn =>
  let s2 := { s1 with hasNext := hn }
  match pyGet page_info "endCursor" .null with
  | .error _ => .error s2
  | .ok ec =>
  .ok { s2 with afterToken := ec }

/-- The `while has_next` loop of `get_vietnamese_movies`, on fuel.
`script` plays `_fetch_movies_page`: it receives the request number and
the cursor the loop passed (`self._fetch_movies_page(after_token)`), and
a falsy response is the `if not movies_page` failure branch (lines
81-85): count a page error, sleep 5 seconds, `continue` with the cursor
unchanged.  An exception in the body (lines 114-117) also counts a page
error and continues. -/
def runCrawl (script : Nat → Json → Json) : Nat → CrawlState → CrawlState
  | 0, s => s
  | fuel + 1, s =>
    if !s.hasNext.truthy then s
    else
      let page := script s.calls s.afterToken
      let s1 := { s with calls := s.calls + 1 }
      if !page.truthy then
        runCrawl script fuel { s1 with pageErrors := s1.pageErrors + 1 }
      else
        match crawlBody page s1 with
        | .error s2 => runCrawl script fuel { s2 with pageErrors := s2.pageErrors + 1 }
        | .ok s2 => runCrawl script fuel s2

/-- A well-formed page envelope as `_fetch_movies_page` returns it. -/
def mkPage (edges : List Json) (hasNextPage : Bool) (endCursor : Json) : Json :=
  .obj [("data", .obj [("advancedTitleSearch", .obj [
    ("edges", .arr edges),
    ("pageInfo", .obj [("hasNextPage", .bool hasNextPage),
                       ("endCursor", endCursor)])])])]

/-- A page envelope whose `advancedTitleSearch` carries no `pageInfo`
substructure at all. -/
def mkPageNoInfo (edges : List Json) : Json :=
  .obj [("data", .obj [("advancedTitleSearch", .obj [
    ("edges", .arr edges)])])]

theorem crawlBody_mkPage (edges : List Json) (hn : Bool) (ec : Json)
    (s : CrawlState) :
    crawlBody (mkPage edges hn ec) s =
      .ok { processEdges edges s with hasNext := .bool hn, afterToken := ec } := by
  simp [crawlBody, mkPage, pyGet, lookupField, pyIter]

theorem crawlBody_mkPageNoInfo (edges : List Json) (s : CrawlState) :
    crawlBody (mkPageNoInfo edges) s =
      .ok { processEdges edges s with hasNext := .bool false, afterToken := .null } := by
  simp [crawlBody, mkPageNoInfo, pyGet, lookupField, pyIter]

theorem runCrawl_halt (script : Nat → Json → Json) (fuel : Nat)
    (s : CrawlState) (h : s.hasNext.truthy = false) :
    runCrawl script fuel s = s := by
  cases fuel with
  | zero => rfl
  | succ n => simp [runCrawl, h]

theorem processEdges_calls (edges : List Json) (s : CrawlState) :
    (processEdges edges s).calls = s.calls := by
  simp [processEdges_spec]

theorem crawlBody_calls (page : Json) (s : CrawlState) :
    (∀ t, crawlBody page s = .ok t → t.calls = s.calls) ∧
    (∀ t, crawlBody page s = .error t → t.calls = s.calls) := by
  unfold crawlBody
  repeat' split
  all_goals constructor
  all_goals intro t ht
  all_goals first
    | (injection ht with h2; subst h2; simp [processEdges_calls])
    | (injection ht)

theorem runCrawl_calls_mono (script : Nat → Json → Json) :
    ∀ (fuel : Nat) (s : CrawlState), s.calls ≤ (runCrawl script fuel s).calls := by
  intro fuel
  induction fuel with
  | zero => intro s; simp [runCrawl]
  | succ n ih =>
    intro s
    by_cases h : s.hasNext.truthy
    · simp only [runCrawl, h, Bool.not_true, Bool.false_eq_true, if_false]
      split
      · have hih := ih { s with calls := s.calls + 1, pageErrors := s.pageErrors + 1 }
        have hcc : ({ s with calls := s.calls + 1, pageErrors := s.pageErrors + 1 } : CrawlState).calls = s.calls + 1 := rfl
        omega
      · cases heq : crawlBody (script s.calls s.afterToken)
            { s with calls := s.calls + 1 } with
        | error t =>
          simp only [heq]
          have hc : t.calls = s.calls + 1 := (crawlBody_calls (script s.calls s.afterToken)
            { s with calls := s.calls + 1 }).2 t heq
          have hih := ih { t with pageErrors := t.pageErrors + 1 }
          have hcc : ({ t with pageErrors := t.pageErrors + 1 } : CrawlState).calls = t.calls := rfl
          omega
        | ok t =>
          simp only [heq]
          have hc : t.calls = s.calls + 1 := (crawlBody_calls (script s.calls s.afterToken)
            { s with calls := s.calls + 1 }).1 t heq
          have hih := ih t
          omega
    · rw [runCrawl_halt script (n + 1) s (Bool.eq_false_iff.mpr h)]

theorem runCrawl_success_step (script : Nat → Json → Json) (fuel : Nat)
    (s s' : CrawlState) (hnext : s.hasNext.truthy = true)
    (hpage : (script s.calls s.afterToken).truthy = true)
    (hok : crawlBody (script s.calls s.afterToken) { s with calls := s.calls + 1 } = .ok s') :
    runCrawl script (fuel + 1) s = runCrawl script fuel s' := by
  simp [runCrawl, hnext, hpage, hok]

/-- The scripted three-page fetch sequence: pages 1 and 2 report
`hasNextPage=true` with cursors `c1`, `c2`; page 3 reports
`hasNextPage=false`. -/
def threePageScript (e1 e2 e3 : List Json) (c1 c2 : Json) : Nat → Json → Json :=
  fun k _ =>
    if k = 0 then mkPage e1 true c1
    else if k = 1 then mkPage e2 true c2
    else if k = 2 then mkPage e3 false .null
    else .null

/-- The same sequence, with page 3 carrying no `pageInfo` substructure. -/
def threePageScriptNoInfo (e1 e2 e3 : List Json) (c1 c2 : Json) :
    Nat → Json → Json :=
  fun k _ =>
    if k = 0 then mkPage e1 true c1
    else if k = 1 then mkPage e2 true c2
    else if k = 2 then mkPageNoInfo e3
    else .null

/-- Claim C6: the catalog crawl loop halts exactly on a falsy `has_next`
(a page reporting `hasNextPage=false`, or one whose `pageInfo`
substructure is absent, since `pageInfo.get('hasNextPage', False)` then
defaults to `False`); on the scripted three-page sequence the loop
performs exactly 3 fetch calls, collects exactly the valid records of
pages 1-3 in order, and stops with `has_next = False` — for the
`pageInfo`-less variant of page 3 as well. -/
theorem catalog_pagination_termination (e1 e2 e3 : List Json) (c1 c2 : Json)
    (fuel : Nat) (hf : 3 ≤ fuel) :
    (∀ (script : Nat → Json → Json) (fuel2 : Nat) (s : CrawlState),
      s.hasNext.truthy = false → runCrawl script fuel2 s = s) ∧
    (∀ (script : Nat → Json → Json) (fuel2 : Nat) (s : CrawlState),
      s.hasNext.truthy = true → 0 < fuel2 →
      s.calls < (runCrawl script fuel2 s).calls) ∧
    (let s := runCrawl (threePageScript e1 e2 e3 c1 c2) fuel initCrawlState
     s.calls = 3 ∧
     s.allMovies = validMovies e1 ++ validMovies e2 ++ validMovies e3 ∧
     s.hasNext = .bool false ∧ s.pageErrors = 0) ∧
    (let s := runCrawl (threePageScriptNoInfo e1 e2 e3 c1 c2) fuel initCrawlState
     s.calls = 3 ∧
     s.allMovies = validMovies e1 ++ validMovies e2 ++ validMovies e3 ∧
     s.hasNext = .bool false) := by
  refine ⟨?_, ?_, ?_, ?_⟩
  · intro script fuel2 s h
    exact runCrawl_halt script fuel2 s h
  · intro script fuel2 s hnext hpos
    obtain ⟨n, rfl⟩ : ∃ n, fuel2 = n + 1 := ⟨fuel2 - 1, by omega⟩
    simp only [runCrawl, hnext, Bool.not_true, Bool.false_eq_true, if_false]
    split
    · have hih := runCrawl_calls_mono script n
        { s with calls := s.calls + 1, pageErrors := s.pageErrors + 1 }
      have hcc : ({ s with calls := s.calls + 1, pageErrors := s.pageErrors + 1 } : CrawlState).calls = s.calls + 1 := rfl
      omega
    · cases heq : crawlBody (script s.calls s.afterToken)
          { s with calls := s.calls + 1 } with
      | error t =>
        simp only [heq]
        have hc : t.calls = s.calls + 1 := (crawlBody_calls (script s.calls s.afterToken)
          { s with calls := s.calls + 1 }).2 t heq
        have hih := runCrawl_calls_mono script n { t with pageErrors := t.pageErrors + 1 }
        have hcc : ({ t with pageErrors := t.pageErrors + 1 } : CrawlState).calls = t.calls := rfl
        omega
      | ok t =>
        simp only [heq]
        have hc : t.calls = s.calls + 1 := (crawlBody_calls (script s.calls s.afterToken)
          { s with calls := s.calls + 1 }).1 t heq
        have hih := runCrawl_calls_mono script n t
        omega
  · obtain ⟨f, rfl⟩ : ∃ f, fuel = f + 3 := ⟨fuel - 3, by omega⟩
    have h1 : runCrawl (threePageScript e1 e2 e3 c1 c2) (f + 2 + 1) initCrawlState =
        runCrawl (threePageScript e1 e2 e3 c1 c2) (f + 2)
          { afterToken := c1, hasNext := .bool true,
            allMovies := validMovies e1, errorCount := edgeErrors e1,
            pageErrors := 0, calls := 1 } := by
      apply runCrawl_success_step
      · rfl
      · rfl
      · show crawlBody (mkPage e1 true c1) _ = _
        rw [crawlBody_mkPage, processEdges_spec]
        simp [initCrawlState]
    have h2 : runCrawl (threePageScript e1 e2 e3 c1 c2) (f + 1 + 1)
        { afterToken := c1, hasNext := .bool true,
          allMovies := validMovies e1, errorCount := edgeErrors e1,
          pageErrors := 0, calls := 1 } =
        runCrawl (threePageScript e1 e2 e3 c1 c2) (f + 1)
          { afterToken := c2, hasNext := .bool true,
            allMovies := validMovies e1 ++ validMovies e2,
            errorCount := edgeErrors e1 + edgeErrors e2,
            pageErrors := 0, calls := 2 } := by
      apply runCrawl_success_step
      · rfl
      · rfl
      · show crawlBody (mkPage e2 true c2) _ = _
        rw [crawlBody_mkPage, processEdges_spec]
    have h3 : runCrawl (threePageScript e1 e2 e3 c1 c2) (f + 1)
        { afterToken := c2, hasNext := .bool true,
          allMovies := validMovies e1 ++ validMovies e2,
          errorCount := edgeErrors e1 + edgeErrors e2,
          pageErrors := 0, calls := 2 } =
        runCrawl (threePageScript e1 e2 e3 c1 c2) f
          { afterToken := .null, hasNext := .bool false,
            allMovies := validMovies e1 ++ validMovies e2 ++ validMovies e3,
            errorCount := edgeErrors e1 + edgeErrors e2 + edgeErrors e3,
            pageErrors := 0, calls := 3 } := by
      apply runCrawl_success_step
      · rfl
      · rfl
      · show crawlBody (mkPage e3 false .null) _ = _
        rw [crawlBody_mkPage, processEdges_spec]
    have h4 := runCrawl_halt (threePageScript e1 e2 e3 c1 c2) f
      { afterToken := .null, hasNext := .bool false,
        allMovies := validMovies e1 ++ validMovies e2 ++ validMovies e3,
        errorCount := edgeErrors e1 + edgeErrors e2 + edgeErrors e3,
        pageErrors := 0, calls := 3 } rfl
    show _ ∧ _ ∧ _ ∧ _
    rw [show f + 3 = f + 2 + 1 from rfl, h1, show f + 2 = f + 1 + 1 from rfl,
      h2, h3, h4]
    exact ⟨rfl, rfl, rfl, rfl⟩
  · obtain ⟨f, rfl⟩ : ∃ f, fuel = f + 3 := ⟨fuel - 3, by omega⟩
    have h1 : runCrawl (threePageScriptNoInfo e1 e2 e3 c1 c2) (f + 2 + 1)
        initCrawlState =
        runCrawl (threePageScriptNoInfo e1 e2 e3 c1 c2) (f + 2)
          { afterToken := c1, hasNext := .bool true,
            allMovies := validMovies e1, errorCount := edgeErrors e1,
            pageErrors := 0, calls := 1 } := by
      apply runCrawl_success_step
      · rfl
      · rfl
      · show crawlBody (mkPage e1 true c1) _ = _
        rw [crawlBody_mkPage, processEdges_spec]
        simp [initCrawlState]
    have h2 : runCrawl (threePageScriptNoInfo e1 e2 e3 c1 c2) (f + 1 + 1)
        { afterToken := c1, hasNext := .bool true,
          allMovies := validMovies e1, errorCount := edgeErrors e1,
          pageErrors := 0, calls := 1 } =
        runCrawl (threePageScriptNoInfo e1 e2 e3 c1 c2) (f + 1)
          { afterToken := c2, hasNext := .bool true,
            allMovies := validMovies e1 ++ validMovies e2,
            errorCount := edgeErrors e1 + edgeErrors e2,
            pageErrors := 0, calls := 2 } := by
      apply runCrawl_success_step
      · rfl
      · rfl
      · show crawlBody (mkPage e2 true c2) _ = _
        rw [crawlBody_mkPage, processEdges_spec]
    have h3 : runCrawl (threePageScriptNoInfo e1 e2 e3 c1 c2) (f + 1)
        { afterToken := c2, hasNext := .bool true,
          allMovies := validMovies e1 ++ validMovies e2,
          errorCount := edgeErrors e1 + edgeErrors e2,
          pageErrors := 0, calls := 2 } =
        runCrawl (threePageScriptNoInfo e1 e2 e3 c1 c2) f
          { afterToken := .null, hasNext := .bool false,
            allMovies := validMovies e1 ++ validMovies e2 ++ validMovies e3,
            errorCount := edgeErrors e1 + edgeErrors e2 + edgeErrors e3,
            pageErrors := 0, calls := 3 } := by
      apply runCrawl_success_step
      · rfl
      · rfl
      · show crawlBody (mkPageNoInfo e3) _ = _
        rw [crawlBody_mkPageNoInfo, processEdges_spec]
    have h4 := runCrawl_halt (threePageScriptNoInfo e1 e2 e3 c1 c2) f
      { afterToken := .null, hasNext := .bool false,
        allMovies := validMovies e1 ++ validMovies e2 ++ validMovies e3,
        errorCount := edgeErrors e1 + edgeErrors e2 + edgeErrors e3,
        pageErrors := 0, calls := 3 } rfl
    show _ ∧ _ ∧ _
    rw [show f + 3 = f + 2 + 1 from rfl, h1, show f + 2 = f + 1 + 1 from rfl,
      h2, h3, h4]
    exact ⟨rfl, rfl, rfl⟩

/-- Witness for `catalog_pagination_termination` at a concrete scripted
sequence (page 1 holds `sampleEdge`, pages 2 and 3 are empty). -/
theorem catalog_pagination_termination_witness :
    (∀ (script : Nat → Json → Json) (fuel2 : Nat) (s : CrawlState),
      s.hasNext.truthy = false → runCrawl script fuel2 s = s) ∧
    (∀ (script : Nat → Json → Json) (fuel2 : Nat) (s : CrawlState),
      s.hasNext.truthy = true → 0 < fuel2 →
      s.calls < (runCrawl script fuel2 s).calls) ∧
    (let s := runCrawl (threePageScript [sampleEdge] [] [] (.str "c1") (.str "c2"))
        3 initCrawlState
     s.calls = 3 ∧
     s.allMovies = validMovies [sampleEdge] ++ validMovies [] ++ validMovies [] ∧
     s.hasNext = .bool false ∧ s.pageErrors = 0) ∧
    (let s := runCrawl (threePageScriptNoInfo [sampleEdge] [] [] (.str "c1") (.str "c2"))
        3 initCrawlState
     s.calls = 3 ∧
     s.allMovies = validMovies [sampleEdge] ++ validMovies [] ++ validMovies [] ∧
     s.hasNext = .bool false) :=
  catalog_pagination_termination [sampleEdge] [] [] (.str "c1") (.str "c2") 3
    (by decide)

/-- A scripted fetcher that fails the first request and answers the
second only when it arrives with the same (initial) cursor. -/
def failThenPageScript (e : List Json) (c : Json) : Nat → Json → Json :=
  fun k tok =>
    if k = 0 then .null
    else if tok = .null then mkPage e false c
    else .null

/-- Claim C7: a fetch failure in the catalog loop never advances the
cursor: the failure branch only increments the call and page-error
counters and returns to fetching with the identical `after_token`,
accumulator and `has_next`; in the scripted failure-then-success
sequence the page that failed is fetched again with the same cursor and
its records are collected (at-least-once page semantics).  The cursor is
updated only in the successful branch of the loop body. -/
theorem catalog_failure_keeps_cursor :
    (∀ (script : Nat → Json → Json) (fuel : Nat) (s : CrawlState),
      s.hasNext.truthy = true → (script s.calls s.afterToken).truthy = false →
      runCrawl script (fuel + 1) s =
        runCrawl script fuel
          { s with calls := s.calls + 1, pageErrors := s.pageErrors + 1 }) ∧
    (∀ (e : List Json) (c : Json) (fuel : Nat), 2 ≤ fuel →
      let s := runCrawl (failThenPageScript e c) fuel initCrawlState
      s.calls = 2 ∧ s.pageErrors = 1 ∧ s.allMovies = validMovies e ∧
      s.afterToken = c ∧ s.hasNext = .bool false) := by
  constructor
  · intro script fuel s hnext hfail
    simp [runCrawl, hnext, hfail]
  · intro e c fuel hf
    obtain ⟨f, rfl⟩ : ∃ f, fuel = f + 2 := ⟨fuel - 2, by omega⟩
    have h1 : runCrawl (failThenPageScript e c) (f + 1 + 1) initCrawlState =
        runCrawl (failThenPageScript e c) (f + 1)
          { afterToken := .null, hasNext := .bool true, allMovies := [],
            errorCount := 0, pageErrors := 1, calls := 1 } := by
      simp [runCrawl, initCrawlState, failThenPageScript, Json.truthy]
    have h2 : runCrawl (failThenPageScript e c) (f + 1)
        { afterToken := .null, hasNext := .bool true, allMovies := [],
          errorCount := 0, pageErrors := 1, calls := 1 } =
        runCrawl (failThenPageScript e c) f
          { afterToken := c, hasNext := .bool false,
            allMovies := validMovies e, errorCount := edgeErrors e,
            pageErrors := 1, calls := 2 } := by
      apply runCrawl_success_step
      · rfl
      · rfl
      · show crawlBody (mkPage e false c) _ = _
        rw [crawlBody_mkPage, processEdges_spec]
        simp
    have h3 := runCrawl_halt (failThenPageScript e c) f
      { afterToken := c, hasNext := .bool false,
        allMovies := validMovies e, errorCount := edgeErrors e,
        pageErrors := 1, calls := 2 } rfl
    show _ ∧ _ ∧ _ ∧ _ ∧ _
    rw [show f + 2 = f + 1 + 1 from rfl, h1, h2, h3]
    exact ⟨rfl, rfl, rfl, rfl, rfl⟩

/-- Witness for `catalog_failure_keeps_cursor`: the failure step at the
initial state of an always-failing fetcher, and the scripted
failure-then-success sequence at `e = [sampleEdge]`. -/
theorem catalog_failure_keeps_cursor_witness :
    (runCrawl (fun _ _ => Json.null) (0 + 1) initCrawlState =
      runCrawl (fun _ _ => Json.null) 0
        { initCrawlState with calls := initCrawlState.calls + 1,
                              pageErrors := initCrawlState.pageErrors + 1 }) ∧
    (let s := runCrawl (failThenPageScript [sampleEdge] (.str "cur")) 2
        initCrawlState
     s.calls = 2 ∧ s.pageErrors = 1 ∧ s.allMovies = validMovies [sampleEdge] ∧
     s.afterToken = .str "cur" ∧ s.hasNext = .bool false) :=
  ⟨catalog_failure_keeps_cursor.1 (fun _ _ => Json.null) 0 initCrawlState
      (by decide) (by decide),
   catalog_failure_keeps_cursor.2 [sampleEdge] (.str "cur") 2 (by decide)⟩

/-! ## `MovieDetailCrawler.get_movie_details` (src/movie_detail_crawler.py
lines 30-133)

The navigate-and-scrape round trip is modelled from the point where the
`__NEXT_DATA__` blob has been parsed: `json_data` is the parsed blob,
`original_data` the catalog record the caller passes, and `now` the
`datetime.now().isoformat()` string.  The blanket `except` (lines 117-133)
returns `None`, so the embedded function is total into `Option Details`. -/

/-- The `DetailRecord` dict built at lines 74-96. -/
structure Details where
  id : String
  name : Json
  original_title : Json
  year : Json
  rating : Json
  votes : Json
  user_reviews_count : Json
  critic_reviews_count : Json
  countries : List Json
  certificate : Json
  popularity_rank : Json
  genres : Json
  runtime_minutes : Int
  plot : Json
  primary_image : Json
  link : String
  last_updated : String
deriving Repr, DecidableEq

/-- Python `v or {}` (lines 60-71): the value itself when truthy, an empty
dict otherwise. -/
def pyOrEmptyDict (v : Json) : Json :=
  if v.truthy then v else .obj []

/-- The countries comprehension (lines 83-87): keep truthy dict entries and
emit `country.get('text', '')`. -/
def extractCountries : List Json → List Json
  | [] => []
  | c :: rest =>
    match c with
    | .obj fields =>
      if (Json.obj fields).truthy then
        (lookupField fields "text").getD (.str "") :: extractCountries rest
      else extractCountries rest
    | _ => extractCountries rest

/-- `runtime.get('seconds', 0) // 60 if runtime.get('seconds') else 0`
(line 91) — unlike the catalog variant this guard does not test `runtime`
itself first. -/
def runtimeMinutesField2 (runtime : Json) : Except Unit Int :=
  match pyGet runtime "seconds" .null with
  | .error e => .error e
  | .ok s =>
    if s.truthy then
      match pyGet runtime "seconds" (.num 0) with
      | .error e => .error e
      | .ok s2 => pyFloorDiv60 s2
    else .ok 0

/-- Lines 59-96: pull the `or {}`-guarded substructures out of
`aboveTheFoldData` / `mainColumnData` and build the fresh `details`
dict.  `genres`, `plot` and `primary_image` are read from
`original_data`, every other field from the freshly scraped payload. -/
def buildDetails (movie_id : String) (above main original_data : Json)
    (now : String) : Except Unit Details :=
  match pyGet above "titleText" .null with
  | .error e => .error e
  | .ok v1 =>
  let title_text := pyOrEmptyDict v1
  match pyGet above "originalTitleText" .null with
  | .error e => .error e
  | .ok v2 =>
  let original_title_text := pyOrEmptyDict v2
  match pyGet above "releaseYear" .null with
  | .error e => .error e
  | .ok v3 =>
  let release_year := pyOrEmptyDict v3
  match pyGet above "ratingsSummary" .null with
  | .error e => .error e
  | .ok v4 =>
  let ratings_summary := pyOrEmptyDict v4
  match pyGet above "reviews" .null with
  | .error e => .error e
  | .ok v5 =>
  let reviews := pyOrEmptyDict v5
  match pyGet above "criticReviews" .null with
  | .error e => .error e
  | .ok v6 =>
  let critic_reviews := pyOrEmptyDict v6
  match pyGet above "certificate" .null with
  | .error e => .error e
  | .ok v7 =>
  let certificate := pyOrEmptyDict v7
  match pyGet above "meterRanking" .null with
  | .error e => .error e
  | .ok v8 =>
  let meter_ranking := pyOrEmptyDict v8
  match pyGet above "runtime" .null with
  | .error e => .error e
  | .ok v9 =>
  let runtime := pyOrEmptyDict v9
  match pyGet main "countriesOfOrigin" .null with
  | .error e => .error e
  | .ok v10 =>
  let countries_data := pyOrEmptyDict v10
  match pyGet title_text "text" (.str "") with
  | .error e => .error e
  | .ok namev =>
  match pyGet original_title_text "text" (.str "") with
  | .error e => .error e
  | .ok otv =>
  match pyGet release_year "year" (.str "") with
  | .error e => .error e
  | .ok yearv =>
  match pyGet ratings_summary "aggregateRating" .null with
  | .error e => .error e
  | .ok ratingv =>
  match pyGet ratings_summary "voteCount" (.num 0) with
  | .error e => .error e
  | .ok votesv =>
  match pyGet reviews "total" (.num 0) with
  | .error e => .error e
  | .ok urcv =>
  match pyGet critic_reviews "total" (.num 0) with
  | .error e => .error e
  | .ok crcv =>
  match pyGet countries_data "countries" (.arr []) with
  | .error e => .error e
  | .ok clJson =>
  match pyIter clJson with
  | .error e => .error e
  | .ok citems =>
  match pyGet certificate "rating" (.str "") with
  | .error e => .error e
  | .ok certv =>
  match pyGet meter_ranking "currentRank" .null with
  | .error e => .error e
  | .ok rankv =>
  match pyGet original_data "genres" (.arr []) with
  | .error e => .error e
  | .ok genresv =>
  match runtimeMinutesField2 runtime with
  | .error e => .error e
  | .ok runtimev =>
  match pyGet original_data "plot" (.str "") with
  | .error e => .error e
  | .ok plotv =>
  match pyGet original_data "primary_image" (.str "") with
  | .error e => .error e
  | .ok piv =>
  .ok { id := movie_id, name := namev, original_title := otv, year := yearv,
        rating := ratingv, votes := votesv, user_reviews_count := urcv,
        critic_reviews_count := crcv, countries := extractCountries citems,
        certificate := certv, popularity_rank := rankv, genres := genresv,
        runtime_minutes := runtimev, plot := plotv, primary_image := piv,
        link := "https://www.imdb.com/title/" ++ movie_id,
        last_updated := now }

/-- Lines 98-106: when the freshly scraped `rating` / `votes` / `name` is
falsy, refill it from `original_data` (`rating` and `votes` with default
`None`, `name` from the catalog `title` with default `''`); a falsy
`original_title` is then refilled from the possibly-already-refilled
`name`. -/
def applyFallbacks (d : Details) (original_data : Json) : Except Unit Details :=
  match (if !d.rating.truthy then pyGet original_data "rating" .null
         else .ok d.rating) with
  | .error e => .error e
  | .ok ratingv =>
  match (if !d.votes.truthy then pyGet original_data "votes" .null
         else .ok d.votes) with
  | .error e => .error e
  | .ok votesv =>
  match (if !d.name.truthy then pyGet original_data "title" (.str "")
         else .ok d.name) with
  | .error e => .error e
  | .ok namev =>
  let otv := if !d.original_title.truthy then namev else d.original_title
  .ok { d with rating := ratingv, votes := votesv, name := namev,
               original_title := otv }

/-- Body of `get_movie_details` from the parsed blob on (lines 46-115),
before the blanket `except`. -/
def getMovieDetailsE (movie_id : String) (json_data original_data : Json)
    (now : String) : Except Unit (Option Details) :=
  match pyGet json_data "props" (.obj []) with
  | .error e => .error e
  | .ok props =>
  match pyGet props "pageProps" (.obj []) with
  | .error e => .error e
  | .ok page_props =>
  if !page_props.truthy then .ok none else
  match pyGet page_props "aboveTheFoldData" .null with
  | .error e => .error e
  | .ok above =>
  match pyGet page_props "mainColumnData" .null with
  | .error e => .error e
  | .ok main =>
  if !above.truthy || !main.truthy then .ok none else
  match buildDetails movie_id above main original_data now with
  | .error e => .error e
  | .ok d =>
  match applyFallbacks d original_data with
  | .error e => .error e
  | .ok d2 =>
  if movie_id == "" || !d2.name.truthy then .ok none else
  .ok (some d2)

/-- `get_movie_details` as Python executes it: any exception is caught at
lines 117-133 and the function returns `None`. -/
def getMovieDetails (movie_id : String) (json_data original_data : Json)
    (now : String) : Option Details :=
  match getMovieDetailsE movie_id json_data original_data now with
  | .ok r => r
  | .error _ => none

/-- A concrete freshly scraped `__NEXT_DATA__` blob: name "Fresh Name",
vote count 0, no genres/plot/primary-image anywhere. -/
def c1fresh : Json :=
  .obj [("props", .obj [("pageProps", .obj [
    ("aboveTheFoldData", .obj [
      ("titleText", .obj [("text", .str "Fresh Name")]),
      ("ratingsSummary", .obj [("aggregateRating", .null),
                               ("voteCount", .num 0)])]),
    ("mainColumnData", .obj [("countriesOfOrigin", .null)])])])]

/-- A concrete catalog record: votes 500, its own original title, genre
list, plot and cover image. -/
def c1origA : Json :=
  .obj [("title", .str "Cat-Title"), ("original_title", .str "Cat-OT"),
        ("rating", .null), ("votes", .num 500),
        ("genres", .arr [.str "G1"]), ("plot", .str "catalog-A"),
        ("primary_image", .str "cat-img")]

/-- The same catalog record with a different plot. -/
def c1origB : Json :=
  .obj [("title", .str "Cat-Title"), ("original_title", .str "Cat-OT"),
        ("rating", .null), ("votes", .num 500),
        ("genres", .arr [.str "G1"]), ("plot", .str "catalog-B"),
        ("primary_image", .str "cat-img")]

/-- Counterexample to claim C1 as stated: with the same fresh scrape, the
merged record's plot follows the catalog record (`catalog-A` vs
`catalog-B`), its genres and cover image also come from the catalog
record although the fresh payload never mentions them, and the falsy
fresh original-title is refilled from the merged name (`Fresh Name`)
rather than from the catalog's original-title (`Cat-OT`) — so it is
false that every field other than rating/votes/name/original-title comes
only from the fresh scrape, and false that original-title falls back to
the catalog value. -/
theorem detail_merge_counterexample :
    (getMovieDetails "tt0000003" c1fresh c1origA "t0").map Details.plot =
      some (.str "catalog-A") ∧
    (getMovieDetails "tt0000003" c1fresh c1origB "t0").map Details.plot =
      some (.str "catalog-B") ∧
    (getMovieDetails "tt0000003" c1fresh c1origA "t0").map Details.genres =
      some (.arr [.str "G1"]) ∧
    (getMovieDetails "tt0000003" c1fresh c1origA "t0").map Details.primary_image =
      some (.str "cat-img") ∧
    (getMovieDetails "tt0000003" c1fresh c1origA "t0").map Details.original_title =
      some (.str "Fresh Name") ∧
    getMovieDetails "tt0000003" c1fresh c1origA "t0" ≠
      getMovieDetails "tt0000003" c1fresh c1origB "t0" := by
  refine ⟨by decide, by decide, by decide, by decide, by decide, by decide⟩

/-- Claim C1 (amended): in the merged DetailRecord, rating, votes and
name fall back to the source CatalogRecord's rating/votes/title exactly
when the freshly scraped value is falsy (in particular votes 500 over a
fresh 0 gives 500); a falsy fresh original-title falls back to the merged
name, not to the catalog's original-title; genres, plot and primary-image
are taken from the source CatalogRecord, not the fresh scrape; and every
remaining field of the fresh `details` dict is kept unchanged by the
merge and does not depend on the CatalogRecord. -/
theorem detail_merge_policy :
    (∀ (d : Details) (orig : Json) (d2 : Details),
      applyFallbacks d orig = .ok d2 →
      d2.year = d.year ∧ d2.user_reviews_count = d.user_reviews_count ∧
      d2.critic_reviews_count = d.critic_reviews_count ∧
      d2.countries = d.countries ∧ d2.certificate = d.certificate ∧
      d2.popularity_rank = d.popularity_rank ∧ d2.genres = d.genres ∧
      d2.runtime_minutes = d.runtime_minutes ∧ d2.plot = d.plot ∧
      d2.primary_image = d.primary_image ∧ d2.id = d.id ∧
      d2.link = d.link ∧ d2.last_updated = d.last_updated ∧
      (d.rating.truthy = true → d2.rating = d.rating) ∧
      (d.rating.truthy = false → pyGet orig "rating" .null = .ok d2.rating) ∧
      (d.votes.truthy = true → d2.votes = d.votes) ∧
      (d.votes.truthy = false → pyGet orig "votes" .null = .ok d2.votes) ∧
      (d.name.truthy = true → d2.name = d.name) ∧
      (d.name.truthy = false → pyGet orig "title" (.str "") = .ok d2.name) ∧
      (d.original_title.truthy = true →
        d2.original_title = d.original_title) ∧
      (d.original_title.truthy = false → d2.original_title = d2.name)) ∧
    (∀ (movie_id : String) (above main orig : Json) (now : String)
        (d : Details), buildDetails movie_id above main orig now = .ok d →
      pyGet orig "genres" (.arr []) = .ok d.genres ∧
      pyGet orig "plot" (.str "") = .ok d.plot ∧
      pyGet orig "primary_image" (.str "") = .ok d.primary_image) ∧
    (∀ (movie_id : String) (above main origA origB : Json) (now : String),
      pyGet origA "genres" (.arr []) = pyGet origB "genres" (.arr []) →
      pyGet origA "plot" (.str "") = pyGet origB "plot" (.str "") →
      pyGet origA "primary_image" (.str "") =
        pyGet origB "primary_image" (.str "") →
      buildDetails movie_id above main origA now =
        buildDetails movie_id above main origB now) ∧
    ((getMovieDetails "tt0000003" c1fresh c1origA "t0").map Details.votes =
      some (.num 500)) := by
  refine ⟨?_, ?_, ?_, by decide⟩
  · intro d orig d2 h
    unfold applyFallbacks at h
    cases hr : d.rating.truthy <;> cases hv : d.votes.truthy <;>
      cases hn : d.name.truthy <;> cases ho : d.original_title.truthy <;>
      simp only [hr, hv, hn, ho, Bool.not_true, Bool.not_false] at h <;>
      repeat' split at h
    all_goals first
      | (injection h with h2; subst h2; simp_all)
      | (injection h)
  · intro movie_id above main orig now d h
    simp only [buildDetails] at h
    repeat' split at h
    all_goals first
      | (injection h with h2; subst h2; simp_all)
      | (injection h)
  · intro movie_id above main origA origB now h1 h2 h3
    unfold buildDetails
    rw [h1, h2, h3]

/-- The fresh `details` dict `buildDetails` produces for `c1fresh` over
`c1origA`. -/
def c1freshDetails : Details :=
  { id := "tt0000003", name := .str "Fresh Name", original_title := .str "",
    year := .str "", rating := .null, votes := .num 0,
    user_reviews_count := .num 0, critic_reviews_count := .num 0,
    countries := [], certificate := .str "", popularity_rank := .null,
    genres := .arr [.str "G1"], runtime_minutes := 0,
    plot := .str "catalog-A", primary_image := .str "cat-img",
    link := "https://www.imdb.com/title/tt0000003", last_updated := "t0" }

/-- The merge of `c1freshDetails` with `c1origA`. -/
def c1mergedDetails : Details :=
  { c1freshDetails with
      rating := .null, votes := .num 500,
      name := .str "Fresh Name", original_title := .str "Fresh Name" }

/-- Witness for `detail_merge_policy` at the concrete fresh/catalog
records. -/
theorem detail_merge_policy_witness :
    c1mergedDetails.plot = c1freshDetails.plot ∧
    pyGet c1origA "votes" .null = .ok c1mergedDetails.votes ∧
    c1mergedDetails.original_title = c1mergedDetails.name ∧
    pyGet c1origA "genres" (.arr []) = .ok c1freshDetails.genres := by
  have happ := detail_merge_policy.1 c1freshDetails c1origA c1mergedDetails
    rfl
  obtain ⟨-, -, -, -, -, -, -, -, hplot, -, -, -, -, -, -, -, hvf, -, -, -,
    hotf⟩ := happ
  have hbuild := detail_merge_policy.2.1 "tt0000003"
    (.obj [("titleText", .obj [("text", .str "Fresh Name")]),
           ("ratingsSummary", .obj [("aggregateRating", .null),
                                    ("voteCount", .num 0)])])
    (.obj [("countriesOfOrigin", .null)]) c1origA "t0" c1freshDetails
    rfl
  exact ⟨hplot, hvf (by decide), hotf (by decide), hbuild.1⟩

/-! ## `MovieDetailCrawler.process_movies_file` (src/movie_detail_crawler.py
lines 135-182)

The batch loop over the catalog file.  `get_movie_details` performs a
browser round trip, so the loop model takes it as an oracle
`Json → Json → Option Details` (movie id and catalog record to maybe a
detail record — the real function is total because of its blanket
`except`).  Checkpoint writes (`_save_progress`) and the per-item
`time.sleep(2)` are recorded as an event trace. -/

/-- Observable events of one `process_movies_file` run: a periodic
checkpoint at 1-based input position `idx` (line 163-164), the per-item
rate-limit sleep (line 168), and the final checkpoint (line 171). -/
inductive SaveEvent where
  | periodic (idx : Nat)
  | sleep (idx : Nat)
  | final
deriving Repr, DecidableEq

/-- Does `movie.get('id')` yield a truthy id without raising? -/
def movieIdOk (m : Json) : Bool :=
  match pyGet m "id" .null with
  | .ok v => v.truthy
  | .error _ => false

/-- The `for idx, movie in enumerate(movies, 1)` loop (lines 149-168).
An item whose `movie.get('id')` is falsy is skipped by `continue` before
the checkpoint check and the sleep; a raising `movie.get('id')` aborts
the batch (outer `except`, line 176-178 — the events written so far are
carried on the error side, the final save is not performed). -/
def processLoop (details : Json → Json → Option Details) :
    List Json → Nat → List Details →
    Except (List SaveEvent) (List Details × List SaveEvent)
  | [], _, acc => .ok (acc, [])
  | movie :: rest, idx, acc =>
    match pyGet movie "id" .null with
    | .error _ => .error []
    | .ok movie_id =>
      if !movie_id.truthy then processLoop details rest (idx + 1) acc
      else
        let acc2 := match details movie_id movie with
          | some d => acc ++ [d]
          | none => acc
        let evs1 := if idx % 5 == 0 then [SaveEvent.periodic idx] else []
        match processLoop details rest (idx + 1) acc2 with
        | .error evs => .error (evs1 ++ SaveEvent.sleep idx :: evs)
        | .ok (accF, evs) => .ok (accF, evs1 ++ SaveEvent.sleep idx :: evs)

/-- `process_movies_file` on an already-loaded movie list: run the loop,
then write the final checkpoint (line 171); on an exception return `[]`
(line 178) with only the events that already happened. -/
def processMoviesFile (details : Json → Json → Option Details)
    (movies : List Json) : List Details × List SaveEvent :=
  match processLoop details movies 1 [] with
  | .error evs => ([], evs)
  | .ok (acc, evs) => (acc, evs ++ [SaveEvent.final])

/-- The event trace of either outcome of `processLoop`. -/
def loopEventsOf (r : Except (List SaveEvent) (List Details × List SaveEvent)) :
    List SaveEvent :=
  match r with
  | .error evs => evs
  | .ok (_, evs) => evs

theorem processLoop_events_sound (details : Json → Json → Option Details) :
    ∀ (movies : List Json) (idx : Nat) (acc : List Details) (k : Nat),
      (SaveEvent.periodic k ∈ loopEventsOf (processLoop details movies idx acc) →
        k % 5 = 0 ∧ idx ≤ k ∧
        ∃ m, movies.get? (k - idx) = some m ∧ movieIdOk m = true) ∧
      (SaveEvent.sleep k ∈ loopEventsOf (processLoop details movies idx acc) →
        idx ≤ k ∧ ∃ m, movies.get? (k - idx) = some m ∧ movieIdOk m = true) := by
  intro movies
  induction movies with
  | nil => intro idx acc k; simp [processLoop, loopEventsOf]
  | cons m rest ih =>
    intro idx acc k
    cases hg : pyGet m "id" .null with
    | error e => simp [processLoop, hg, loopEventsOf]
    | ok v =>
      by_cases hv : v.truthy = true
      · have hok : movieIdOk m = true := by simp [movieIdOk, hg, hv]
        cases hrec : processLoop details rest (idx + 1)
            (match details v m with | some d => acc ++ [d] | none => acc) with
        | error evs =>
          have hih := ih (idx + 1)
            (match details v m with | some d => acc ++ [d] | none => acc) k
          rw [hrec] at hih
          simp only [loopEventsOf] at hih
          constructor
          · intro hmem
            simp only [processLoop, hg, hv, Bool.not_true, Bool.false_eq_true,
              if_false, hrec, loopEventsOf, List.mem_append, List.mem_cons] at hmem
            rcases hmem with hmem | hmem | hmem
            · by_cases h5 : idx % 5 == 0 <;> simp [h5] at hmem
              obtain rfl := hmem
              exact ⟨by simpa using h5, Nat.le_refl _, m, by simp, hok⟩
            · exact absurd hmem (by simp)
            · obtain ⟨h5, hle, m2, hm2, hok2⟩ := hih.1 hmem
              refine ⟨h5, by omega, m2, ?_, hok2⟩
              have hk : k - idx = (k - (idx + 1)) + 1 := by omega
              simpa [hk] using hm2
          · intro hmem
            simp only [processLoop, hg, hv, Bool.not_true, Bool.false_eq_true,
              if_false, hrec, loopEventsOf, List.mem_append, List.mem_cons] at hmem
            rcases hmem with hmem | hmem | hmem
            · by_cases h5 : idx % 5 == 0 <;> simp [h5] at hmem
            · injection hmem with hk
              subst hk
              exact ⟨Nat.le_refl _, m, by simp, hok⟩
            · obtain ⟨hle, m2, hm2, hok2⟩ := hih.2 hmem
              refine ⟨by omega, m2, ?_, hok2⟩
              have hk : k - idx = (k - (idx + 1)) + 1 := by omega
              simpa [hk] using hm2
        | ok p =>
          have hih := ih (idx + 1)
            (match details v m with | some d => acc ++ [d] | none => acc) k
          rw [hrec] at hih
          simp only [loopEventsOf] at hih
          constructor
          · intro hmem
            simp only [processLoop, hg, hv, Bool.not_true, Bool.false_eq_true,
              if_false, hrec, loopEventsOf, List.mem_append, List.mem_cons] at hmem
            rcases hmem with hmem | hmem | hmem
            · by_cases h5 : idx % 5 == 0 <;> simp [h5] at hmem
              obtain rfl := hmem
              exact ⟨by simpa using h5, Nat.le_refl _, m, by simp, hok⟩
            · exact absurd hmem (by simp)
            · obtain ⟨h5, hle, m2, hm2, hok2⟩ := hih.1 hmem
              refine ⟨h5, by omega, m2, ?_, hok2⟩
              have hk : k - idx = (k - (idx + 1)) + 1 := by omega
              simpa [hk] using hm2
          · intro hmem
            simp only [processLoop, hg, hv, Bool.not_true, Bool.false_eq_true,
              if_false, hrec, loopEventsOf, List.mem_append, List.mem_cons] at hmem
            rcases hmem with hmem | hmem | hmem
            · by_cases h5 : idx % 5 == 0 <;> simp [h5] at hmem
            · injection hmem with hk
              subst hk
              exact ⟨Nat.le_refl _, m, by simp, hok⟩
            · obtain ⟨hle, m2, hm2, hok2⟩ := hih.2 hmem
              refine ⟨by omega, m2, ?_, hok2⟩
              have hk : k - idx = (k - (idx + 1)) + 1 := by omega
              simpa [hk] using hm2
      · have hv2 : v.truthy = false := by simpa using hv
        have hstep : processLoop details (m :: rest) idx acc =
            processLoop details rest (idx + 1) acc := by
          simp [processLoop, hg, hv2]
        rw [hstep]
        have hih := ih (idx + 1) acc k
        constructor
        · intro hmem
          obtain ⟨h5, hle, m2, hm2, hok2⟩ := hih.1 hmem
          refine ⟨h5, by omega, m2, ?_, hok2⟩
          have hk : k - idx = (k - (idx + 1)) + 1 := by omega
          simpa [hk] using hm2
        · intro hmem
          obtain ⟨hle, m2, hm2, hok2⟩ := hih.2 hmem
          refine ⟨by omega, m2, ?_, hok2⟩
          have hk : k - idx = (k - (idx + 1)) + 1 := by omega
          simpa [hk] using hm2

/-- Claim C8: for an input list of 7 catalog items that all carry an id,
the DetailEnricher writes exactly one periodic checkpoint, after item 5,
and one final checkpoint after item 7; the full event trace also shows
the per-item sleeps and no checkpoint after items 1-4 or 6. -/
theorem enricher_checkpoint_schedule (details : Json → Json → Option Details)
    (movies : List Json) (hlen : movies.length = 7)
    (hids : ∀ m ∈ movies, movieIdOk m = true) :
    (processMoviesFile details movies).2 =
      [.sleep 1, .sleep 2, .sleep 3, .sleep 4, .periodic 5, .sleep 5,
       .sleep 6, .sleep 7, .final] := by
  obtain ⟨m1, m2, m3, m4, m5, m6, m7, rfl⟩ :
      ∃ a b c d e f g, movies = [a, b, c, d, e, f, g] := by
    rcases movies with
      _ | ⟨a, _ | ⟨b, _ | ⟨c, _ | ⟨d, _ | ⟨e, _ | ⟨f, _ | ⟨g, _ | ⟨h, t⟩⟩⟩⟩⟩⟩⟩⟩
    all_goals first
      | (exact ⟨_, _, _, _, _, _, _, rfl⟩)
      | (exfalso; simp at hlen)
  have g1 := hids m1 (by simp)
  have g2 := hids m2 (by simp)
  have g3 := hids m3 (by simp)
  have g4 := hids m4 (by simp)
  have g5 := hids m5 (by simp)
  have g6 := hids m6 (by simp)
  have g7 := hids m7 (by simp)
  cases h1 : pyGet m1 "id" .null with
  | error e => simp [movieIdOk, h1] at g1
  | ok v1 =>
  cases h2 : pyGet m2 "id" .null with
  | error e => simp [movieIdOk, h2] at g2
  | ok v2 =>
  cases h3 : pyGet m3 "id" .null with
  | error e => simp [movieIdOk, h3] at g3
  | ok v3 =>
  cases h4 : pyGet m4 "id" .null with
  | error e => simp [movieIdOk, h4] at g4
  | ok v4 =>
  cases h5 : pyGet m5 "id" .null with
  | error e => simp [movieIdOk, h5] at g5
  | ok v5 =>
  cases h6 : pyGet m6 "id" .null with
  | error e => simp [movieIdOk, h6] at g6
  | ok v6 =>
  cases h7 : pyGet m7 "id" .null with
  | error e => simp [movieIdOk, h7] at g7
  | ok v7 =>
  have t1 : v1.truthy = true := by simpa [movieIdOk, h1] using g1
  have t2 : v2.truthy = true := by simpa [movieIdOk, h2] using g2
  have t3 : v3.truthy = true := by simpa [movieIdOk, h3] using g3
  have t4 : v4.truthy = true := by simpa [movieIdOk, h4] using g4
  have t5 : v5.truthy = true := by simpa [movieIdOk, h5] using g5
  have t6 : v6.truthy = true := by simpa [movieIdOk, h6] using g6
  have t7 : v7.truthy = true := by simpa [movieIdOk, h7] using g7
  simp [processMoviesFile, processLoop, h1, h2, h3, h4, h5, h6, h7,
    t1, t2, t3, t4, t5, t6, t7]

/-- Witness for `enricher_checkpoint_schedule` at 7 concrete one-field
records and the trivial oracle. -/
theorem enricher_checkpoint_schedule_witness :
    (processMoviesFile (fun _ _ => none)
      [.obj [("id", .str "tt1")], .obj [("id", .str "tt2")],
       .obj [("id", .str "tt3")], .obj [("id", .str "tt4")],
       .obj [("id", .str "tt5")], .obj [("id", .str "tt6")],
       .obj [("id", .str "tt7")]]).2 =
      [.sleep 1, .sleep 2, .sleep 3, .sleep 4, .periodic 5, .sleep 5,
       .sleep 6, .sleep 7, .final] :=
  enricher_checkpoint_schedule (fun _ _ => none) _ (by decide) (by decide)

/-- Claim C10: an item whose id lookup yields a falsy value is skipped by
`continue` before the periodic-checkpoint check and before the per-item
sleep, and the checkpoint interval counts 1-based input positions: every
periodic checkpoint at position `k` requires `k % 5 = 0` and a truthy id
at input position `k`, every sleep at `k` requires a truthy id at `k`,
and in a 5-item batch whose fifth item lacks an id no checkpoint or
sleep happens at position 5 — only the final checkpoint is written. -/
theorem enricher_skip_before_checkpoint :
    (∀ (details : Json → Json → Option Details) (movies : List Json) (k : Nat),
      SaveEvent.periodic k ∈ (processMoviesFile details movies).2 →
      k % 5 = 0 ∧ 1 ≤ k ∧
      ∃ m, movies.get? (k - 1) = some m ∧ movieIdOk m = true) ∧
    (∀ (details : Json → Json → Option Details) (movies : List Json) (k : Nat),
      SaveEvent.sleep k ∈ (processMoviesFile details movies).2 →
      1 ≤ k ∧ ∃ m, movies.get? (k - 1) = some m ∧ movieIdOk m = true) ∧
    (∀ (details : Json → Json → Option Details) (m1 m2 m3 m4 m5 : Json),
      (∀ m ∈ [m1, m2, m3, m4], movieIdOk m = true) →
      (∃ v, pyGet m5 "id" .null = .ok v ∧ v.truthy = false) →
      (processMoviesFile details [m1, m2, m3, m4, m5]).2 =
        [.sleep 1, .sleep 2, .sleep 3, .sleep 4, .final]) := by
  refine ⟨?_, ?_, ?_⟩
  · intro details movies k hmem
    have h := (processLoop_events_sound details movies 1 [] k).1
    cases hloop : processLoop details movies 1 [] with
    | error evs =>
      rw [hloop] at h
      simp only [processMoviesFile, hloop] at hmem
      exact h (by simpa [loopEventsOf] using hmem)
    | ok p =>
      rw [hloop] at h
      simp only [processMoviesFile, hloop] at hmem
      have : SaveEvent.periodic k ∈ p.2 := by
        rcases p with ⟨a, evs⟩
        simpa using hmem
      exact h (by simpa [loopEventsOf] using this)
  · intro details movies k hmem
    have h := (processLoop_events_sound details movies 1 [] k).2
    cases hloop : processLoop details movies 1 [] with
    | error evs =>
      rw [hloop] at h
      simp only [processMoviesFile, hloop] at hmem
      exact h (by simpa [loopEventsOf] using hmem)
    | ok p =>
      rw [hloop] at h
      simp only [processMoviesFile, hloop] at hmem
      have : SaveEvent.sleep k ∈ p.2 := by
        rcases p with ⟨a, evs⟩
        simpa using hmem
      exact h (by simpa [loopEventsOf] using this)
  · intro details m1 m2 m3 m4 m5 hids hno
    obtain ⟨v5, h5, t5⟩ := hno
    have g1 := hids m1 (by simp)
    have g2 := hids m2 (by simp)
    have g3 := hids m3 (by simp)
    have g4 := hids m4 (by simp)
    cases h1 : pyGet m1 "id" .null with
    | error e => simp [movieIdOk, h1] at g1
    | ok v1 =>
    cases h2 : pyGet m2 "id" .null with
    | error e => simp [movieIdOk, h2] at g2
    | ok v2 =>
    cases h3 : pyGet m3 "id" .null with
    | error e => simp [movieIdOk, h3] at g3
    | ok v3 =>
    cases h4 : pyGet m4 "id" .null with
    | error e => simp [movieIdOk, h4] at g4
    | ok v4 =>
    have t1 : v1.truthy = true := by simpa [movieIdOk, h1] using g1
    have t2 : v2.truthy = true := by simpa [movieIdOk, h2] using g2
    have t3 : v3.truthy = true := by simpa [movieIdOk, h3] using g3
    have t4 : v4.truthy = true := by simpa [movieIdOk, h4] using g4
    simp [processMoviesFile, processLoop, h1, h2, h3, h4, h5,
      t1, t2, t3, t4, t5]

/-- Witness for `enricher_skip_before_checkpoint`: a 5-good-item batch in
which position 5 does write a periodic checkpoint, and a batch whose
fifth item has an empty id. -/
theorem enricher_skip_before_checkpoint_witness :
    (5 % 5 = 0 ∧ 1 ≤ 5 ∧
      ∃ m, [Json.obj [("id", .str "a")], .obj [("id", .str "b")],
            .obj [("id", .str "c")], .obj [("id", .str "d")],
            .obj [("id", .str "e")]].get? (5 - 1) = some m ∧
        movieIdOk m = true) ∧
    ((processMoviesFile (fun _ _ => none)
        [.obj [("id", .str "a")], .obj [("id", .str "b")],
         .obj [("id", .str "c")], .obj [("id", .str "d")],
         .obj [("id", .str "")]]).2 =
      [.sleep 1, .sleep 2, .sleep 3, .sleep 4, .final]) :=
  ⟨enricher_skip_before_checkpoint.1 (fun _ _ => none)
      [.obj [("id", .str "a")], .obj [("id", .str "b")],
       .obj [("id", .str "c")], .obj [("id", .str "d")],
       .obj [("id", .str "e")]] 5 (by decide),
   enricher_skip_before_checkpoint.2.2 (fun _ _ => none)
      (.obj [("id", .str "a")]) (.obj [("id", .str "b")])
      (.obj [("id", .str "c")]) (.obj [("id", .str "d")])
      (.obj [("id", .str "")]) (by decide) ⟨.str "", rfl, by decide⟩⟩

/-! ## `UserReviewCrawler` (src/user_review_crawler.py)

Per-review extraction (`_extract_review_data`, lines 153-193) and the
per-movie page loop (`get_movie_reviews`, lines 67-113). -/

/-- Digit-string value, for decimal character references. -/
def digitsVal : List Char → Option Nat
  | [] => none
  | cs =>
    if cs.all (fun c => c.isDigit) then
      some (cs.foldl (fun a c => a * 10 + (c.toNat - 48)) 0)
    else none

/-- One HTML entity body (between `&` and `;`).  Models the stdlib
`html.unescape` on the entity forms the crawler's review text exercises:
the basic named entities and decimal character references. -/
def decodeEntity (name : List Char) : Option (List Char) :=
  let s := String.mk name
  if s = "amp" then some ['&']
  else if s = "lt" then some ['<']
  else if s = "gt" then some ['>']
  else if s = "quot" then some ['"']
  else
    match name with
    | '#' :: ds =>
      match digitsVal ds with
      | some n => if n < 1114112 then some [Char.ofNat n] else none
      | none => none
    | _ => none

/-- Split an entity body off at the first `;`: `some (body, suffix)`
when a `;` exists, `none` otherwise. -/
def splitEntity : List Char → Option (List Char × List Char)
  | [] => none
  | c :: rest =>
    if c = ';' then some ([], rest)
    else
      match splitEntity rest with
      | some (pre, suf) => some (c :: pre, suf)
      | none => none

/-- Scan for `&...;` sequences and decode them; anything undecodable is
kept verbatim.  The `Nat` is plain fuel (one unit per character consumed)
so the function is structurally recursive; callers pass the input
length. -/
def unescapeAux : Nat → List Char → List Char
  | 0, l => l
  | _ + 1, [] => []
  | fuel + 1, c :: rest =>
    if c = '&' then
      match splitEntity rest with
      | some (pre, suf) =>
        match decodeEntity pre with
        | some cs => cs ++ unescapeAux fuel suf
        | none => c :: unescapeAux fuel rest
      | none => c :: unescapeAux fuel rest
    else c :: unescapeAux fuel rest

/-- `html.unescape` as used at lines 166 and 170. -/
def htmlUnescape (s : String) : String :=
  String.mk (unescapeAux s.toList.length s.toList)

/-- Left-to-right non-overlapping replacement over the characters, on
fuel, structurally recursive. -/
def replaceAux (pattern repl : List Char) : Nat → List Char → List Char
  | 0, l => l
  | _ + 1, [] => []
  | fuel + 1, c :: rest =>
    if pattern.isPrefixOf (c :: rest) && !pattern.isEmpty then
      repl ++ replaceAux pattern repl fuel ((c :: rest).drop pattern.length)
    else c :: replaceAux pattern repl fuel rest

/-- Python `s.replace(pattern, repl)` for the non-empty literal patterns
the crawler uses (`<br/>` and `<br>`). -/
def pyStrReplace (s pattern repl : String) : String :=
  String.mk (replaceAux pattern.toList repl.toList s.toList.length s.toList)

/-- The `review` dict built at lines 173-187. -/
structure Review where
  review_id : Json
  movie_id : String
  movie_name : Json
  original_title : Json
  review_title : String
  review_content : String
  spoiler : Json
  rating : Json
  like : Json
  dislike : Json
  reviewer_username : Json
  submission_date : Json
  updated_at : String
deriving Repr, DecidableEq

/-- The argument of `html.unescape` must be a `str`; anything else raises
(`TypeError` inside the stdlib). -/
def pyStr (v : Json) : Except Unit String :=
  match v with
  | .str s => .ok s
  | _ => .error ()

/-- Body of `_extract_review_data` (lines 154-189) before its own
blanket `except`. -/
def extractReviewDataE (edge : Json) (movie_id : String)
    (movie_name original_title : Json) (now : String) :
    Except Unit (Option Review) :=
  match pyGet edge "node" (.obj []) with
  | .error e => .error e
  | .ok node =>
  if !node.truthy then .ok none else
  match pyGet node "text" (.obj []) with
  | .error e => .error e
  | .ok t1 =>
  match pyGet t1 "originalText" (.obj []) with
  | .error e => .error e
  | .ok t2 =>
  match pyGet t2 "plaidHtml" (.str "") with
  | .error e => .error e
  | .ok rawContentJ =>
  match pyGet node "summary" (.obj []) with
  | .error e => .error e
  | .ok s1 =>
  match pyGet s1 "originalText" (.str "") with
  | .error e => .error e
  | .ok rawTitleJ =>
  match pyStr rawContentJ with
  | .error e => .error e
  | .ok rawContent =>
  let cleanContent :=
    pyStrReplace (pyStrReplace (htmlUnescape rawContent) "<br/>" "\n") "<br>" "\n"
  match pyStr rawTitleJ with
  | .error e => .error e
  | .ok rawTitle =>
  let cleanTitle := htmlUnescape rawTitle
  match pyGet node "id" (.str "") with
  | .error e => .error e
  | .ok ridv =>
  match pyGet node "spoiler" (.bool false) with
  | .error e => .error e
  | .ok spoilerv =>
  match pyGet node "authorRating" .null with
  | .error e => .error e
  | .ok ratingv =>
  match pyGet node "helpfulness" (.obj []) with
  | .error e => .error e
  | .ok help1 =>
  match pyGet help1 "upVotes" (.num 0) with
  | .error e => .error e
  | .ok likev =>
  match pyGet node "helpfulness" (.obj []) with
  | .error e => .error e
  | .ok help2 =>
  match pyGet help2 "downVotes" (.num 0) with
  | .error e => .error e
  | .ok dislikev =>
  match pyGet node "author" (.obj []) with
  | .error e => .error e
  | .ok author =>
  match pyGet author "nickName" (.str "") with
  | .error e => .error e
  | .ok userv =>
  match pyGet node "submissionDate" (.str "") with
  | .error e => .error e
  | .ok datev =>
  .ok (some { review_id := ridv, movie_id := movie_id,
              movie_name := movie_name, original_title := original_title,
              review_title := cleanTitle, review_content := cleanContent,
              spoiler := spoilerv, rating := ratingv, like := likev,
              dislike := dislikev, reviewer_username := userv,
              submission_date := datev, updated_at := now })

/-- `_extract_review_data` as Python executes it: the blanket `except`
(lines 191-193) returns `None`. -/
def extractReviewData (edge : Json) (movie_id : String)
    (movie_name original_title : Json) (now : String) : Option Review :=
  match extractReviewDataE edge movie_id movie_name original_title now with
  | .ok r => r
  | .error _ => none

/-- The loop state of `get_movie_reviews`: cursor (starts `""`), the
`all_reviews` accumulator, the page counter (starts 1) and the number of
fetch calls performed. -/
structure ReviewLoopState where
  afterToken : Json
  allReviews : List Review
  page : Nat
  calls : Nat
deriving Repr, DecidableEq

/-- `after_token = ""`, no reviews, page 1. -/
def initReviewState : ReviewLoopState :=
  { afterToken := .str "", allReviews := [], page := 1, calls := 0 }

/-- One iteration of the body after a truthy page containing `'data'`
(lines 86-107): three subscripts down to `reviews`, extract every edge,
append the survivors, then read `pageInfo`; the `Bool` is whether the
loop continues (`has_next` truthy — otherwise line 102-104 breaks, the
cursor already updated).  Any exception breaks the loop keeping the
reviews appended so far (lines 109-111), carried on the error side. -/
def reviewBody (page : Json) (movie_id : String)
    (movie_name original_title : Json) (now : String)
    (s : ReviewLoopState) : Except ReviewLoopState (ReviewLoopState × Bool) :=
  match pySubscript page "data" with
  | .error _ => .error s
  | .ok d =>
  match pySubscript d "title" with
  | .error _ => .error s
  | .ok t =>
  match pySubscript t "reviews" with
  | .error _ => .error s
  | .ok reviews_data =>
  match pyGet reviews_data "edges" (.arr []) with
  | .error _ => .error s
  | .ok edgesJson =>
  match pyIter edgesJson with
  | .error _ => .error s
  | .ok edges =>
  let collected :=
    edges.filterMap (fun e => extractReviewData e movie_id movie_name original_title now)
  let s1 := { s with allReviews := s.allReviews ++ collected }
  match pyGet reviews_data "pageInfo" (.obj []) with
  | .error _ => .error s1
  | .ok page_info =>
  match pyGet page_info "hasNextPage" (.bool false) with
  | .error _ => .error s1
  | .ok hn =>
  match pyGet page_info "endCursor" (.str "") with
  | .error _ => .error s1
  | .ok tok =>
  let s2 := { s1 with afterToken := tok }
  if hn.truthy then .ok ({ s2 with page := s2.page + 1 }, true)
  else .ok (s2, false)

/-- The `while has_next` loop of `get_movie_reviews` (lines 76-111) on
fuel.  `script` plays `_fetch_reviews_page(movie_id, after_token)`
(request number and cursor to envelope, `Json.null` for a `None`).  A
falsy response or one without a `'data'` key — and any exception — ends
the loop immediately (`break`): there is no backoff and no refetch. -/
def runReviewLoop (script : Nat → Json → Json) (movie_id : String)
    (movie_name original_title : Json) (now : String) :
    Nat → ReviewLoopState → ReviewLoopState
  | 0, s => s
  | fuel + 1, s =>
    let page := script s.calls s.afterToken
    let s1 := { s with calls := s.calls + 1 }
    if !page.truthy then s1
    else
      match pyContains page "data" with
      | .error _ => s1
      | .ok hasData =>
        if !hasData then s1
        else
          match reviewBody page movie_id movie_name original_title now s1 with
          | .error s2 => s2
          | .ok (s2, true) =>
            runReviewLoop script movie_id movie_name original_title now fuel s2
          | .ok (s2, false) => s2

/-- A well-formed review page envelope as `_fetch_reviews_page` returns
it. -/
def mkReviewPage (edges : List Json) (hasNextPage : Bool) (endCursor : Json) :
    Json :=
  .obj [("data", .obj [("title", .obj [("reviews", .obj [
    ("edges", .arr edges),
    ("pageInfo", .obj [("hasNextPage", .bool hasNextPage),
                       ("endCursor", endCursor)])])])])]

/-- A review edge carrying one extractable review. -/
def sampleReviewEdge : Json :=
  .obj [("node", .obj [
    ("id", .str "rw1"),
    ("text", .obj [("originalText", .obj [("plaidHtml", .str "Nice film")])]),
    ("summary", .obj [("originalText", .str "Great")])])]

/-- Scripted review fetcher: the first request fails (`None`), any later
request arriving with the initial cursor would return a one-review final
page. -/
def c3scriptFail : Nat → Json → Json := fun k tok =>
  if k = 0 then .null
  else if tok = .str "" then mkReviewPage [sampleReviewEdge] false (.str "c1")
  else .null

/-- The same fetcher without the initial failure. -/
def c3scriptOk : Nat → Json → Json := fun _ tok =>
  if tok = .str "" then mkReviewPage [sampleReviewEdge] false (.str "c1")
  else .null

/-- Counterexample to claim C3 as stated: on the scripted
failure-then-success sequence the review loop performs exactly one fetch
and returns no reviews — it never sleeps and refetches with the same
cursor — although the page available at that same cursor carries an
extractable review, which the loop run without the initial failure does
collect.  So the inner review loop is not an instance of the retrying
CrawlLoop pattern and the failed page's reviews are skipped. -/
theorem review_loop_no_retry_counterexample :
    runReviewLoop c3scriptFail "tt1" (.str "N") (.str "OT") "t0" 10
      initReviewState =
      { afterToken := .str "", allReviews := [], page := 1, calls := 1 } ∧
    (runReviewLoop c3scriptOk "tt1" (.str "N") (.str "OT") "t0" 10
      initReviewState).allReviews.length = 1 ∧
    (extractReviewData sampleReviewEdge "tt1" (.str "N") (.str "OT")
      "t0").isSome = true := by
  refine ⟨by decide, by decide, by decide⟩

/-- Claim C3 (amended): the per-movie review loop breaks out immediately
on a fetch failure — a falsy response, a response without a `'data'`
key, or any processing exception — returning the reviews accumulated so
far: it performs no backoff sleep and never refetches the failed page,
whatever fuel remains, so the failed page and all pages after it are
skipped (the catalog loop's retry-with-same-cursor behaviour does not
apply here). -/
theorem review_loop_break_on_failure :
    (∀ (script : Nat → Json → Json) (movie_id : String)
       (movie_name original_title : Json) (now : String) (fuel : Nat)
       (s : ReviewLoopState),
      (script s.calls s.afterToken).truthy = false →
      runReviewLoop script movie_id movie_name original_title now (fuel + 1) s =
        { s with calls := s.calls + 1 }) ∧
    (∀ (script : Nat → Json → Json) (movie_id : String)
       (movie_name original_title : Json) (now : String) (fuel : Nat)
       (s : ReviewLoopState),
      (script s.calls s.afterToken).truthy = true →
      pyContains (script s.calls s.afterToken) "data" = .ok false →
      runReviewLoop script movie_id movie_name original_title now (fuel + 1) s =
        { s with calls := s.calls + 1 }) ∧
    (∀ fuel : Nat,
      runReviewLoop c3scriptFail "tt1" (.str "N") (.str "OT") "t0" (fuel + 1)
        initReviewState =
        { afterToken := .str "", allReviews := [], page := 1, calls := 1 }) := by
  refine ⟨?_, ?_, ?_⟩
  · intro script movie_id movie_name original_title now fuel s hfail
    simp [runReviewLoop, hfail]
  · intro script movie_id movie_name original_title now fuel s htr hnd
    simp [runReviewLoop, htr, hnd]
  · intro fuel
    simp [runReviewLoop, c3scriptFail, initReviewState, Json.truthy]

/-- Witness for `review_loop_break_on_failure` at concrete scripts. -/
theorem review_loop_break_on_failure_witness :
    (runReviewLoop (fun _ _ => Json.null) "tt1" (.str "N") (.str "OT") "t0"
      (3 + 1) initReviewState =
      { initReviewState with calls := initReviewState.calls + 1 }) ∧
    (runReviewLoop (fun _ _ => Json.arr [.str "x"]) "tt1" (.str "N")
      (.str "OT") "t0" (3 + 1) initReviewState =
      { initReviewState with calls := initReviewState.calls + 1 }) ∧
    (runReviewLoop c3scriptFail "tt1" (.str "N") (.str "OT") "t0" (4 + 1)
      initReviewState =
      { afterToken := .str "", allReviews := [], page := 1, calls := 1 }) :=
  ⟨review_loop_break_on_failure.1 (fun _ _ => Json.null) "tt1" (.str "N")
      (.str "OT") "t0" 3 initReviewState (by decide),
   review_loop_break_on_failure.2.1 (fun _ _ => Json.arr [.str "x"]) "tt1"
      (.str "N") (.str "OT") "t0" 3 initReviewState (by decide) rfl,
   review_loop_break_on_failure.2.2 4⟩

/-! ## Checkpoint serialization

`_save_progress` (src/imdb_crawler.py lines 255-261, and
src/movie_detail_crawler.py lines 184-191) and `_save_reviews`
(src/user_review_crawler.py lines 229-236) all execute
`open(file, 'w')` — truncating the file — followed by
`json.dump(accumulator, f, ensure_ascii=False, indent=4)`.  The dump is
modelled by `dumpJson` below: Python's serializer with a 4-space indent,
`', '`-free item separators (`,` + newline under an indent), `': '`
key separators, and `ensure_ascii=False` string escaping (only `"`, `\`
and control characters are escaped; everything else, non-ASCII included,
is emitted literally). -/

/-- Lowercase hex digit. -/
def hexDigit (n : Nat) : Char :=
  if n < 10 then Char.ofNat (48 + n) else Char.ofNat (87 + n)

/-- `json.dump` escaping of one character with `ensure_ascii=False`:
`\"`, `\\`, the short control escapes, `\u00XX` for the remaining
control characters, and every other character (non-ASCII included)
unchanged. -/
def escChar (c : Char) : String :=
  if c = '"' then "\\\""
  else if c = '\\' then "\\\\"
  else if c = '\n' then "\\n"
  else if c = '\r' then "\\r"
  else if c = '\t' then "\\t"
  else if c.toNat = 8 then "\\b"
  else if c.toNat = 12 then "\\f"
  else if c.toNat < 32 then
    "\\u00" ++ String.singleton (hexDigit (c.toNat / 16)) ++
      String.singleton (hexDigit (c.toNat % 16))
  else String.singleton c

/-- Escape a whole string for a JSON string literal. -/
def escapeString (s : String) : String :=
  String.join (s.toList.map escChar)

/-- `indent * level` spaces (indent is pinned to 4). -/
def indentStr (level : Nat) : String :=
  String.mk (List.replicate (4 * level) ' ')

mutual

/-- `json.dumps(v, ensure_ascii=False, indent=4)` at nesting `level`. -/
def dumpJson : Nat → Json → String
  | _, .null => "null"
  | _, .bool true => "true"
  | _, .bool false => "false"
  | _, .num n => toString n
  | _, .str s => "\"" ++ escapeString s ++ "\""
  | _, .arr [] => "[]"
  | level, .arr (x :: xs) =>
    "[\n" ++ indentStr (level + 1) ++ dumpJson (level + 1) x ++
      dumpArrItems (level + 1) xs ++ "\n" ++ indentStr level ++ "]"
  | _, .obj [] => "\x7b\x7d"
  | level, .obj (f :: fs) =>
    "\x7b\n" ++ indentStr (level + 1) ++ dumpField (level + 1) f ++
      dumpObjItems (level + 1) fs ++ "\n" ++ indentStr level ++ "\x7d"

/-- One `"key": value` member. -/
def dumpField : Nat → String × Json → String
  | level, (k, v) => "\"" ++ escapeString k ++ "\": " ++ dumpJson level v

/-- The remaining array items, each after `,` + newline + indent. -/
def dumpArrItems : Nat → List Json → String
  | _, [] => ""
  | level, x :: xs =>
    ",\n" ++ indentStr level ++ dumpJson level x ++ dumpArrItems level xs

/-- The remaining object members, each after `,` + newline + indent. -/
def dumpObjItems : Nat → List (String × Json) → String
  | _, [] => ""
  | level, f :: fs =>
    ",\n" ++ indentStr level ++ dumpField level f ++ dumpObjItems level fs

end

/-- The `movie_data` dict as it is serialized, keys in construction
order (src/imdb_crawler.py lines 218-228). -/
def MovieData.toJson (m : MovieData) : Json :=
  .obj [("id", m.id), ("title", m.title), ("year", m.year),
        ("rating", m.rating), ("votes", m.votes),
        ("runtime_minutes", .num m.runtime_minutes),
        ("genres", .arr m.genres), ("plot", m.plot),
        ("primary_image", m.primary_image)]

/-- The `review` dict as it is serialized, keys in construction order
(src/user_review_crawler.py lines 173-187). -/
def Review.toJson (r : Review) : Json :=
  .obj [("review_id", r.review_id), ("movie_id", .str r.movie_id),
        ("movie_name", r.movie_name), ("original_title", r.original_title),
        ("review_title", .str r.review_title),
        ("review_content", .str r.review_content),
        ("spoiler", r.spoiler), ("rating", r.rating), ("like", r.like),
        ("dislike", r.dislike),
        ("reviewer_username", r.reviewer_username),
        ("submission_date", r.submission_date),
        ("updated_at", .str r.updated_at)]

/-- `_save_progress` (src/imdb_crawler.py lines 255-261): `open(.., 'w')`
truncates, so the new file content is the dump of the accumulator alone,
whatever the previous content was. -/
def saveProgress (_prev : String) (allMovies : List MovieData) : String :=
  dumpJson 0 (.arr (allMovies.map MovieData.toJson))

/-- `_save_reviews` (src/user_review_crawler.py lines 229-236): same
write shape over the review accumulator. -/
def saveReviews (_prev : String) (reviews : List Review) : String :=
  dumpJson 0 (.arr (reviews.map Review.toJson))

/-- Claim C9: each checkpoint write truncates and rewrites the file with
one JSON array (`indent=4`, `': '` separators) — so the new content does
not depend on the previous content (overwrite, not append), writing the
same accumulator twice is byte-identical (the timestamps are data inside
the accumulator), the character escaper leaves every non-control
character other than `"` and `\` — all non-ASCII in particular —
literally unescaped, and a concrete non-ASCII record serializes with
human-readable indentation and the non-ASCII text verbatim. -/
theorem checkpoint_idempotent_overwrite :
    (∀ (p1 p2 : String) (ms : List MovieData),
      saveProgress p1 ms = saveProgress p2 ms) ∧
    (∀ (p : String) (ms : List MovieData),
      saveProgress (saveProgress p ms) ms = saveProgress p ms) ∧
    (∀ (p1 p2 : String) (rs : List Review),
      saveReviews p1 rs = saveReviews p2 rs) ∧
    (∀ (p : String) (rs : List Review),
      saveReviews (saveReviews p rs) rs = saveReviews p rs) ∧
    (∀ (p : String) (ms : List MovieData),
      saveProgress p ms = dumpJson 0 (.arr (ms.map MovieData.toJson))) ∧
    (∀ (p : String) (rs : List Review),
      saveReviews p rs = dumpJson 0 (.arr (rs.map Review.toJson))) ∧
    (∀ c : Char, 32 ≤ c.toNat → c ≠ '"' → c ≠ '\\' →
      escChar c = String.singleton c) ∧
    (dumpJson 0 (.arr [.obj [("title", .str "Phở")]]) =
      "[\n    \x7b\n        \"title\": \"Phở\"\n    \x7d\n]") := by
  refine ⟨fun _ _ _ => rfl, fun _ _ => rfl, fun _ _ _ => rfl, fun _ _ => rfl,
    fun _ _ => rfl, fun _ _ => rfl, ?_, by decide⟩
  intro c h1 h2 h3
  have hn : c ≠ '\n' := by rintro rfl; exact absurd h1 (by decide)
  have hr : c ≠ '\r' := by rintro rfl; exact absurd h1 (by decide)
  have ht : c ≠ '\t' := by rintro rfl; exact absurd h1 (by decide)
  have hb : ¬ c.toNat = 8 := by omega
  have hf : ¬ c.toNat = 12 := by omega
  have hlt : ¬ c.toNat < 32 := by omega
  simp [escChar, h2, h3, hn, hr, ht, hb, hf, hlt]

/-- Witness for `checkpoint_idempotent_overwrite`: the escaper at the
non-ASCII character `ở`. -/
theorem checkpoint_idempotent_overwrite_witness :
    escChar 'ở' = String.singleton 'ở' :=
  checkpoint_idempotent_overwrite.2.2.2.2.2.2.1 'ở' (by decide) (by decide)
    (by decide)

end IMDbCrawler
